import Mathlib

/-!
A verification development for the `sql-ast` crate: a typed SQL abstract
syntax tree together with a tree-walking renderer that lowers a `Query`
into a parameterized SQL text and an ordered list of bound values.

The embedding mirrors the Rust source:

* the AST node types of `src/ast/*.rs` become a mutual inductive family;
* the rendering algorithm of `src/renderer.rs`, together with the
  PostgreSQL dialect hooks of `src/renderer/postgres.rs`, becomes a family
  of mutually recursive emitter functions.  The Rust visitors mutate an
  accumulator pair (text buffer, parameter vector) through exactly two
  primitives: `write` (append text) and `visit_parameterized`
  (`add_parameter` followed by `parameter_substitution`).  No visitor ever
  reads the accumulators - the only read is `parameters.len()` inside
  `parameter_substitution` itself - so each visitor is faithfully
  represented by the state-independent sequence of emitted actions
  (`Act.text` for `write`, `Act.par` for `visit_parameterized`), and the
  stateful run is recovered by folding `apply_act` (which implements the
  two mutating primitives verbatim) over that sequence.
* The text buffer is modelled as a list of `Chunk`s so that a placeholder
  written by `parameter_substitution` (the characters `$` followed by the
  current parameter count) stays distinguishable from ordinary text; the
  final string is the concatenation of the rendered chunks.

Modules `row.rs`, `values.rs`, `ordering.rs`, `grouping.rs`, `ops.rs` and
`over.rs` are declared by `ast.rs` but their sources are not available;
the same holds for the PostgreSQL implementations of `visit_delete` and
`visit_json_build_object`.  Definitions depending on them are modelled
from the specification and are marked as such in their doc comments.
-/

set_option maxHeartbeats 8000000

namespace SqlAst

/-- The opaque structured literal value (`serde_json::Value`).  The spec
treats it as an opaque structured-value type; the claims only ever
inspect null, boolean, numeric and string literals, so it is modelled by
those shapes. -/
inductive JVal where
  | null
  | bool (b : Bool)
  | num (n : Int)
  | str (s : String)
deriving DecidableEq, Repr

/-- One piece of the output text buffer: ordinary text written by `write`,
or a positional placeholder written by `parameter_substitution` (rendered
as `$` followed by the recorded number). -/
inductive Chunk where
  | str (t : String)
  | param (n : Nat)
deriving DecidableEq, Repr

/-- Text of a single chunk; a placeholder chunk renders as `$n` exactly as
`Postgres::parameter_substitution` writes it. -/
def Chunk.render : Chunk → String
  | .str t => t
  | .param n => "$" ++ toString n

/-- Rendered text of the whole buffer. -/
def renderChunks (cs : List Chunk) : String :=
  cs.foldl (fun acc c => acc ++ c.render) ""

/-- The renderer's only state: the output text accumulator and the
parameter accumulator (`Postgres { query, parameters }`). -/
structure RState where
  query : List Chunk
  parameters : List JVal
deriving DecidableEq, Repr

/-- `Renderer::write`: append to the query text. -/
def write (t : String) (s : RState) : RState :=
  { s with query := s.query ++ [.str t] }

/-- `Postgres::add_parameter`: push the value onto the parameter vector. -/
def add_parameter (v : JVal) (s : RState) : RState :=
  { s with parameters := s.parameters ++ [v] }

/-- `Postgres::parameter_substitution`: write `$` followed by the current
length of the parameter vector. -/
def parameter_substitution (s : RState) : RState :=
  { s with query := s.query ++ [.param s.parameters.length] }

/-- `Renderer::visit_parameterized`: `add_parameter` then
`parameter_substitution`. -/
def visit_parameterized (v : JVal) (s : RState) : RState :=
  parameter_substitution (add_parameter v s)

/-- One emitted action of a visitor: a text write or a parameterized
value. -/
inductive Act where
  | text (t : String)
  | par (v : JVal)
deriving DecidableEq, Repr

/-- Run one action against the renderer state. -/
def apply_act (s : RState) : Act → RState
  | .text t => write t s
  | .par v => visit_parameterized v s

/-- Run an emitted action sequence against the renderer state. -/
def apply (s : RState) (acts : List Act) : RState :=
  acts.foldl apply_act s

/-- `ORDER BY` direction (`Order` in the missing `ordering.rs`; the
variants and their rendered text are fixed by
`Postgres::visit_ordering`). -/
inductive Order where
  | Asc
  | Desc
  | AscNullsFirst
  | AscNullsLast
  | DescNullsFirst
  | DescNullsLast
deriving DecidableEq, Repr

/-- `EncodeFormat` of `function/encode.rs`. -/
inductive EncodeFormat where
  | Base64
  | Escape
  | Hex
deriving DecidableEq, Repr

mutual

/-- `Expression` of `ast/expression.rs`: a kind plus an optional alias. -/
inductive Expression where
  | mk (kind : ExpressionKind) (aliasName : Option String)

/-- `ExpressionKind` of `ast/expression.rs`. -/
inductive ExpressionKind where
  | Parameterized (v : JVal)
  | Raw (t : String)
  | Column (c : Column)
  | Table (t : Table)
  | Row (r : Row)
  | Selection (s : Select)
  | Function (f : Function)
  | Asterisk (t : Option Table)
  | Op (o : SqlOp)
  | ConditionTree (t : ConditionTree)
  | Compare (c : Compare)
  | Value (e : Expression)
  | Values (v : Values)
  | Default

/-- `Column` of `ast/column.rs`: name, optional owning table, optional
alias. -/
inductive Column where
  | mk (name : String) (table : Option Table) (aliasName : Option String)

/-- `Table` of `ast/table.rs`: a type, an optional alias and an optional
database. -/
inductive Table where
  | mk (typ : TableType) (aliasName : Option String) (database : Option String)

/-- `TableType` of `ast/table.rs`.  The Rust `JoinedTable` variant boxes a
pair of the base table name and the join list. -/
inductive TableType where
  | Table (name : String)
  | JoinedTable (name : String) (joins : List Join)
  | Query (s : Select)
  | Values (v : Values)

/-- `Row` of the missing `row.rs`: a vector of expressions rendered as
`(e1,e2,...)` (shape fixed by `visit_row` in `renderer.rs`). -/
inductive Row where
  | mk (values : List Expression)

/-- `Values` of the missing `values.rs`: a multi-row literal set, a vector
of rows (shape fixed by `visit_values` in `renderer.rs`). -/
inductive Values where
  | mk (rows : List Row)

/-- `ConditionTree` of `ast/conditions.rs`. -/
inductive ConditionTree where
  | And (es : List Expression)
  | Or (es : List Expression)
  | Not (e : Expression)
  | Single (e : Expression)
  | NoCondition
  | NegativeCondition
  | Exists (t : Table)

/-- `Compare` of `ast/compare.rs` (with the `postgresql` feature). -/
inductive Compare where
  | Equals (l r : Expression)
  | NotEquals (l r : Expression)
  | LessThan (l r : Expression)
  | LessThanOrEquals (l r : Expression)
  | GreaterThan (l r : Expression)
  | GreaterThanOrEquals (l r : Expression)
  | In (l r : Expression)
  | NotIn (l r : Expression)
  | Like (l r : Expression)
  | NotLike (l r : Expression)
  | Null (e : Expression)
  | NotNull (e : Expression)
  | Between (v l r : Expression)
  | NotBetween (v l r : Expression)
  | Raw (l : Expression) (comp : String) (r : Expression)
  | JsonCompare (j : JsonCompare)
  | Any (e : Expression)
  | All (e : Expression)

/-- `JsonCompare` of `ast/compare.rs`. -/
inductive JsonCompare where
  | ArrayOverlaps (l r : Expression)
  | ArrayContains (l r : Expression)
  | ArrayContained (l r : Expression)
  | ArrayNotContains (l r : Expression)
  | TypeEquals (l : Expression) (t : JsonType)
  | TypeNotEquals (l : Expression) (t : JsonType)

/-- `JsonType` of `ast/compare.rs`. -/
inductive JsonType where
  | Array
  | Object
  | String
  | Number
  | Boolean
  | Null
  | ColumnRef (c : Column)

/-- `Function` of `ast/function.rs`: a function type plus an optional
alias. -/
inductive Function where
  | mk (typ : FunctionType) (aliasName : Option String)

/-- `FunctionType` of `ast/function.rs`, with each variant's payload
struct (`Count`, `Sum`, ... from `ast/function/*.rs`) inlined.  The
PostgreSQL `JsonPath` has only the `Array` variant, inlined as the list of
path keys. -/
inductive FunctionType where
  | Count (exprs : List Expression)
  | AggregateToString (value : Expression)
  | Average (column : Column)
  | Sum (expr : Expression)
  | Lower (expression : Expression)
  | Upper (expression : Expression)
  | Minimum (column : Column)
  | Maximum (column : Column)
  | Coalesce (exprs : List Expression)
  | Concat (exprs : List Expression)
  | JsonExtract (column : Expression) (path : List String) (extractAsString : Bool)
  | JsonExtractLastArrayElem (expr : Expression)
  | JsonExtractFirstArrayElem (expr : Expression)
  | JsonUnquote (expr : Expression)
  | RowToJson (expr : Table) (prettyPrint : Bool)
  | ToJsonb (table : Table)
  | JsonAgg (expression : Expression) (distinct : Bool) (orderBy : Option Ordering)
  | Encode (expression : Expression) (format : EncodeFormat)
  | JsonBuildObject (values : List KeyValue)

/-- One `(Cow<str>, Expression)` pair of `JsonBuildObject`. -/
inductive KeyValue where
  | mk (key : String) (value : Expression)

/-- One `OrderDefinition`: an expression with an optional direction. -/
inductive OrderPair where
  | mk (value : Expression) (direction : Option Order)

/-- `Ordering` of the missing `ordering.rs`: an ordered list of
(expression, optional direction) pairs (shape fixed by
`Postgres::visit_ordering`). -/
inductive Ordering where
  | mk (pairs : List OrderPair)

/-- `Grouping` of the missing `grouping.rs`: an ordered list of
expressions (shape fixed by `visit_grouping` in `renderer.rs`). -/
inductive Grouping where
  | mk (exprs : List Expression)

/-- `SqlOp` of the missing `ops.rs` (variants and rendering fixed by
`visit_operation` in `renderer.rs`). -/
inductive SqlOp where
  | Add (l r : Expression)
  | Sub (l r : Expression)
  | Mul (l r : Expression)
  | Div (l r : Expression)
  | Rem (l r : Expression)
  | Append (l r : Expression)
  | JsonDeleteAtPath (l r : Expression)

/-- `Join` of `ast/join.rs`. -/
inductive Join where
  | Inner (d : JoinData)
  | Left (d : JoinData)
  | Right (d : JoinData)
  | Full (d : JoinData)

/-- `JoinData` of `ast/join.rs` (with the `postgresql` feature's `lateral`
flag). -/
inductive JoinData where
  | mk (table : Table) (conditions : ConditionTree) (lateral : Bool)

/-- `Select` of `ast/select.rs`. -/
inductive Select where
  | mk (ctes : List CommonTableExpression) (distinct : Bool)
       (tables : List Table) (columns : List Expression)
       (conditions : Option ConditionTree) (ordering : Ordering)
       (grouping : Grouping) (having : Option ConditionTree)
       (limit : Option Nat) (offset : Option Nat)
       (joins : List Join) (comment : Option String)

/-- `CommonTableExpression` of `ast/common_table_expression.rs`. -/
inductive CommonTableExpression where
  | mk (name : String) (query : Query)

/-- `Query` of `ast/query.rs`. -/
inductive Query where
  | Select (s : Select)
  | Insert (i : Insert)
  | Update (u : Update)
  | Delete (d : Delete)

/-- `Insert` of `ast/insert.rs`. -/
inductive Insert where
  | mk (table : Option Table) (columns : List Column) (values : Expression)
       (onConflict : Option OnConflict) (returning : Option (List Column))
       (comment : Option String)

/-- `OnConflict` of `ast/insert.rs`. -/
inductive OnConflict where
  | DoNothing
  | Update (u : Update) (constraints : List Column)

/-- `Update` of `ast/update.rs`. -/
inductive Update where
  | mk (table : Table) (columns : List Column) (values : List Expression)
       (conditions : Option ConditionTree) (returning : Option (List Column))

/-- `Delete` of `ast/delete.rs`. -/
inductive Delete where
  | mk (table : Table) (conditions : Option ConditionTree)

end

/-- Modelled from the spec: `Row::is_empty` of the missing `row.rs` - an
"empty literal row" is a row with no values. -/
def Row.is_empty : Row → Bool
  | .mk values => values.isEmpty

/-- Modelled from the spec: `Values::row_len` of the missing `values.rs` -
the spec's IN-rewrite table keys on "a literal value-set with zero rows"
and "a single-row value-set", so `row_len` counts the rows of the set. -/
def Values.row_len : Values → Nat
  | .mk rows => rows.length

/-- Modelled from the spec: `Values::flatten_row` of the missing
`values.rs` - flattening a single-row value set yields that single
literal row (the spec's singleton flattening); undefined otherwise. -/
def Values.flatten_row : Values → Option Row
  | .mk [r] => some r
  | _ => none

/-- `Postgres::C_BACKTICK_OPEN` / `C_BACKTICK_CLOSE`: identifiers are
double-quoted, so `surround_with_backticks` writes `"`, the part, `"`. -/
def surround_with_backticks (part : String) : List Act :=
  [.text "\"", .text part, .text "\""]

/-- `Renderer::delimited_identifiers`: each part surrounded with the
quoting characters, parts separated by `.`. -/
def delimited_identifiers : List String → List Act
  | [] => []
  | [p] => surround_with_backticks p
  | p :: ps => surround_with_backticks p ++ [.text "."] ++ delimited_identifiers ps

/-- `Postgres::visit_limit_and_offset`: both values are parameterized, a
limit value preceding an offset value. -/
def visit_limit_and_offset (limit offset : Option Nat) : List Act :=
  match limit, offset with
  | some l, some o =>
      [.text " LIMIT ", .par (.num l), .text " OFFSET ", .par (.num o)]
  | none, some o => [.text " OFFSET ", .par (.num o)]
  | some l, none => [.text " LIMIT ", .par (.num l)]
  | none, none => []

/-- The `for (index, path)` loop of `Postgres::visit_json_extract`: each
path key parameterized as a string, `, `-separated. -/
def json_path_params : List String → List Act
  | [] => []
  | [p] => [.par (.str p)]
  | p :: ps => [.par (.str p), .text ", "] ++ json_path_params ps

/-- The column-name loops of `columns_to_bracket_list` and
`Postgres::visit_insert`: each column is rendered bare
(`visit_column(c.name.into_owned().into())`, inlined here to its
rendering `delimited_identifiers [name]`), `,`-separated. -/
def bare_column_names : List Column → List Act
  | [] => []
  | [.mk name _ _] => delimited_identifiers [name]
  | .mk name _ _ :: cs =>
      delimited_identifiers [name] ++ [.text ","] ++ bare_column_names cs

/-- `Renderer::columns_to_bracket_list`. -/
def columns_to_bracket_list (columns : List Column) : List Act :=
  [.text " ("] ++ bare_column_names columns ++ [.text ")"]

/-- One table's projection in `visit_select` when the column list is
empty (`renderer.rs` lines 195-246): an aliased table projects
`"alias".*`; an unaliased plain table projects its qualified name plus
`.*` (the `visit_table(table, false)` call is inlined to its rendering);
an unaliased joined table projects the base table name plus `.*` (the
`unjoined_table` clone with `typ = TableType::Table(jt.0)`, inlined); an
unaliased query or values table projects a bare `*`. -/
def star_projection (t : Table) : List Act :=
  match t with
  | .mk typ aliasName database =>
    match typ, aliasName with
    | .Query _, some a => surround_with_backticks a ++ [.text ".*"]
    | .Query _, none => [.text "*"]
    | .Values _, some a => surround_with_backticks a ++ [.text ".*"]
    | .Values _, none => [.text "*"]
    | .Table _, some a => surround_with_backticks a ++ [.text ".*"]
    | .Table name, none =>
        (match database with
         | some db => delimited_identifiers [db, name]
         | none => delimited_identifiers [name]) ++ [.text ".*"]
    | .JoinedTable _ _, some a => surround_with_backticks a ++ [.text ".*"]
    | .JoinedTable name _, none =>
        (match database with
         | some db => delimited_identifiers [db, name]
         | none => delimited_identifiers [name]) ++ [.text ".*"]

/-- The `for (i, table)` projection loop of `visit_select` (separator
`, ` before every non-first table). -/
def star_projection_list : List Table → List Act
  | [] => []
  | [t] => star_projection t
  | t :: ts => star_projection t ++ [.text ", "] ++ star_projection_list ts

/-- The direction text of `Postgres::visit_ordering`. -/
def order_direction : Order → String
  | .Asc => " ASC"
  | .Desc => " DESC"
  | .AscNullsFirst => "ASC NULLS FIRST"
  | .AscNullsLast => "ASC NULLS LAST"
  | .DescNullsFirst => "DESC NULLS FIRST"
  | .DescNullsLast => "DESC NULLS LAST"

/-- The argument of one visitor call: the rendering algorithm is one
mutually recursive family (`visit_*` in `renderer.rs`/`postgres.rs`);
to keep the recursion kernel-friendly the family is defunctionalized
into a single function `render_any` over this sum of argument shapes,
with one constructor per visitor.  The named `visit_*` definitions below
wrap the corresponding constructor. -/
inductive RArg where
  | expression (e : Expression)
  | column (c : Column)
  | table (t : Table) (includeAlias : Bool)
  | row (r : Row)
  | values (v : Values)
  | conditions (t : ConditionTree)
  | operation (o : SqlOp)
  | compare (c : Compare)
  | jsonTypeName (t : JsonType)
  | function (f : Function)
  | kvList (kvs : List KeyValue)
  | ordering (o : Ordering)
  | orderPairs (ps : List OrderPair)
  | joins (js : List Join)
  | joinData (d : JoinData)
  | selectQ (s : Select)
  | whereC (c : Option ConditionTree)
  | groupBy (g : Grouping)
  | havingC (c : Option ConditionTree)
  | orderBy (o : Ordering)
  | tableList (ts : List Table)
  | cteList (cs : List CommonTableExpression)
  | cte (c : CommonTableExpression)
  | query (q : Query)
  | insert (i : Insert)
  | update (u : Update)
  | upsert (u : Update)
  | delete (d : Delete)
  | columnList (cs : List Column)
  | exprListSep (sep : String) (es : List Expression)
  | rowListSep (sep : String) (rs : List Row)
  | updatePairs (cs : List Column) (vs : List Expression)

/-- The one generic rendering recursion, one match arm per visitor.

* `.expression`: `Renderer::visit_expression` (`renderer.rs` lines
  441-472) - dispatch on the kind, then emit the alias as ` AS "alias"`
  when present.
* `.column`: `Renderer::visit_column` (lines 523-537).
* `.table`: `Renderer::visit_table` (lines 494-520).
* `.row` / `.values`: `visit_row` / `visit_values` - the elements
  `,`-separated inside parentheses.
* `.conditions`: `visit_conditions` (lines 554-593).
* `.operation`: `visit_operation` - every operation parenthesized.
* `.compare`: `visit_compare` (lines 632-847) with the PostgreSQL
  overrides of `visit_like`/`visit_not_like` (explicit `::text` cast
  after a column left side) and the PostgreSQL JSON/array hooks
  (`visit_array_contains`, `visit_array_contained`,
  `visit_array_overlaps`, `visit_json_type_equals`) inlined at their
  call sites with the `not` flag resolved.  The `In`/`NotIn` arms are in
  the priority order of the source: an empty literal row on the right
  (`row.is_empty()` expressed by the empty-row pattern; a non-empty
  literal row on the right falls through to the generic arm exactly as
  in the source), a zero-row value set with a row on the left, a
  single-column row against a single-row value set (the guard
  `cols.len() == 1 && vals.row_len() == 1` expressed by the singleton
  patterns; `cols.pop()`/`vals.flatten_row()` yield the single column
  and row), a scalar parameterized right side, a row against a value set
  (`visit_multiple_tuple_comparison`, inlined), and the generic
  fallback.
* `.jsonTypeName`: the right side of `Postgres::visit_json_type_equals`
  (the type-name arms call `visit_expression` on a parameterized string
  literal, which emits exactly one parameterized value, inlined).
* `.function`: `visit_function` (lines 879-957) with the PostgreSQL JSON
  hooks, the PostgreSQL `visit_concat` override (`||`-joined inside
  parentheses) and `Postgres::visit_aggregate_to_string` inlined; the
  alias is emitted last.  `visit_json_build_object` is missing from the
  source: its `.kvList` argument loop is modelled from the spec (keys
  parameterized as strings, `, `-separated from their values and from
  each other).
* `.ordering` / `.orderPairs`: `Postgres::visit_ordering` and its
  `for (i, (value, ordering))` loop - each expression followed by its
  direction text (an empty write when no direction is set),
  `, `-separated.
* `.joins` / `.joinData`: `visit_joins` and the PostgreSQL
  `visit_join_data` (optional ` LATERAL `, target table with alias,
  ` ON `, conditions).
* `.selectQ`: `visit_select` (lines 170-288).
* `.whereC` / `.groupBy` / `.havingC` / `.orderBy`: the
  `if let Some(..)` / `if !..is_empty()` clauses of `visit_select`
  (`visit_where` is also the `WHERE` clause of `visit_update`,
  `visit_upsert` and `visit_delete`).
* `.tableList` / `.cteList` / `.cte`: the `FROM` and CTE loops of
  `visit_select` and `visit_common_table_expression` (whose
  `visit_table(Table::from(cte.name), false)` is inlined to its
  rendering `delimited_identifiers [name]`).
* `.query`: `visit_query` (`compatibility_modifications` is the identity
  for the PostgreSQL renderer).
* `.insert`: `Postgres::visit_insert` (`postgres.rs` lines 70-151).
* `.update` / `.upsert` / `.updatePairs`: `visit_update`, `visit_upsert`
  and their zipped `SET` assignment loop (`column = value` pairs,
  `, `-separated exactly when another zipped pair follows).
* `.delete`: modelled from the spec - the PostgreSQL `visit_delete` is
  missing from the source; the spec's end-to-end examples fix it as
  `DELETE FROM <table>` plus an optional ` WHERE <conditions>`.
* `.columnList`: the `RETURNING` loops of `visit_update`/`visit_insert`
  (each column lifted to an expression renders as the column itself).
* `.exprListSep` / `.rowListSep`: the `for (i, ...)` loops with a
  separator before every non-first element (`visit_columns` `, `,
  `visit_row` `,`, the `And`/`Or` arms ` AND `/` OR `, `visit_grouping`
  `, `, the PostgreSQL `visit_concat` ` || `, `visit_values` `,`, the
  multi-row insert `, `). -/
def render_any (x : RArg) : List Act :=
  match x with
  | .expression (.mk kind aliasName) =>
    (match kind with
     | .Value v => render_any (.expression v)
     | .Raw t => [.text t]
     | .ConditionTree tree => render_any (.conditions tree)
     | .Compare c => render_any (.compare c)
     | .Parameterized v => [.par v]
     | .Column c => render_any (.column c)
     | .Row r => render_any (.row r)
     | .Selection sel => [.text "("] ++ render_any (.selectQ sel) ++ [.text ")"]
     | .Function f => render_any (.function f)
     | .Op o => render_any (.operation o)
     | .Values vs => render_any (.values vs)
     | .Asterisk (some t) => render_any (.table t false) ++ [.text ".*"]
     | .Asterisk none => [.text "*"]
     | .Default => [.text "DEFAULT"]
     | .Table t => render_any (.table t false))
    ++ (match aliasName with
        | some a => [.text " AS "] ++ delimited_identifiers [a]
        | none => [])
  | .column (.mk name table aliasName) =>
    (match table with
     | some t => render_any (.table t false) ++ [.text "."]
                   ++ delimited_identifiers [name]
     | none => delimited_identifiers [name])
    ++ (match aliasName with
        | some a => [.text " AS "] ++ delimited_identifiers [a]
        | none => [])
  | .table (.mk typ aliasName database) includeAlias =>
    (match typ with
     | .Table name =>
         (match database with
          | some db => delimited_identifiers [db, name]
          | none => delimited_identifiers [name])
     | .Values vs => render_any (.values vs)
     | .Query sel => [.text "("] ++ render_any (.selectQ sel) ++ [.text ")"]
     | .JoinedTable name joins =>
         (match database with
          | some db => delimited_identifiers [db, name]
          | none => delimited_identifiers [name]) ++ render_any (.joins joins))
    ++ (if includeAlias then
          match aliasName with
          | some a => [.text " AS "] ++ delimited_identifiers [a]
          | none => []
        else [])
  | .row (.mk values) =>
      [.text "("] ++ render_any (.exprListSep "," values) ++ [.text ")"]
  | .values (.mk rows) =>
      [.text "("] ++ render_any (.rowListSep "," rows) ++ [.text ")"]
  | .conditions t =>
    (match t with
     | .And es => [.text "("] ++ render_any (.exprListSep " AND " es) ++ [.text ")"]
     | .Or es => [.text "("] ++ render_any (.exprListSep " OR " es) ++ [.text ")"]
     | .Not e => [.text "(", .text "NOT "] ++ render_any (.expression e) ++ [.text ")"]
     | .Single e => render_any (.expression e)
     | .NoCondition => [.text "1=1"]
     | .NegativeCondition => [.text "1=0"]
     | .Exists tb =>
         [.text "(", .text "EXISTS ", .text "("] ++ render_any (.table tb false)
           ++ [.text ")", .text ")"])
  | .operation op =>
    (match op with
     | .Add l r => [.text "("] ++ render_any (.expression l) ++ [.text " + "]
         ++ render_any (.expression r) ++ [.text ")"]
     | .Sub l r => [.text "("] ++ render_any (.expression l) ++ [.text " - "]
         ++ render_any (.expression r) ++ [.text ")"]
     | .Mul l r => [.text "("] ++ render_any (.expression l) ++ [.text " * "]
         ++ render_any (.expression r) ++ [.text ")"]
     | .Div l r => [.text "("] ++ render_any (.expression l) ++ [.text " / "]
         ++ render_any (.expression r) ++ [.text ")"]
     | .Rem l r => [.text "("] ++ render_any (.expression l) ++ [.text " % "]
         ++ render_any (.expression r) ++ [.text ")"]
     | .Append l r => [.text "("] ++ render_any (.expression l) ++ [.text " || "]
         ++ render_any (.expression r) ++ [.text ")"]
     | .JsonDeleteAtPath l r => [.text "("] ++ render_any (.expression l)
         ++ [.text " #- "] ++ render_any (.expression r) ++ [.text ")"])
  | .compare cmp =>
    (match cmp with
     | .Equals l r => render_any (.expression l) ++ [.text " = "]
         ++ render_any (.expression r)
     | .NotEquals l r => render_any (.expression l) ++ [.text " <> "]
         ++ render_any (.expression r)
     | .LessThan l r => render_any (.expression l) ++ [.text " < "]
         ++ render_any (.expression r)
     | .LessThanOrEquals l r => render_any (.expression l) ++ [.text " <= "]
         ++ render_any (.expression r)
     | .GreaterThan l r => render_any (.expression l) ++ [.text " > "]
         ++ render_any (.expression r)
     | .GreaterThanOrEquals l r => render_any (.expression l) ++ [.text " >= "]
         ++ render_any (.expression r)
     | .In l r =>
       (match l, r with
        | _, .mk (.Row (Row.mk [])) _ => [.text "1=0"]
        | .mk (.Row row) _, .mk (.Values vals) _ =>
            if vals.row_len == 0 then [.text "1=0"]
            else
              (match row, vals with
               | Row.mk [col], Values.mk [vrow] =>
                   render_any (.expression col) ++ [.text " IN "]
                     ++ render_any (.row vrow)
               | row, vals =>
                   render_any (.row row) ++ [.text " IN "]
                     ++ render_any (.values vals))
        | l, .mk (.Parameterized pv) _ =>
            render_any (.expression l) ++ [.text " = ", .par pv]
        | l, r => render_any (.expression l) ++ [.text " IN "]
            ++ render_any (.expression r))
     | .NotIn l r =>
       (match l, r with
        | _, .mk (.Row (Row.mk [])) _ => [.text "1=1"]
        | .mk (.Row row) _, .mk (.Values vals) _ =>
            if vals.row_len == 0 then [.text "1=1"]
            else
              (match row, vals with
               | Row.mk [col], Values.mk [vrow] =>
                   render_any (.expression col) ++ [.text " NOT IN "]
                     ++ render_any (.row vrow)
               | row, vals =>
                   render_any (.row row) ++ [.text " NOT IN "]
                     ++ render_any (.values vals))
        | l, .mk (.Parameterized pv) _ =>
            render_any (.expression l) ++ [.text " <> ", .par pv]
        | l, r => render_any (.expression l) ++ [.text " NOT IN "]
            ++ render_any (.expression r))
     | .Like l r =>
         render_any (.expression l)
           ++ (match l with
               | .mk (.Column _) _ => [.text "::text"]
               | _ => [])
           ++ [.text " LIKE "] ++ render_any (.expression r)
     | .NotLike l r =>
         render_any (.expression l)
           ++ (match l with
               | .mk (.Column _) _ => [.text "::text"]
               | _ => [])
           ++ [.text " NOT LIKE "] ++ render_any (.expression r)
     | .Null e => render_any (.expression e) ++ [.text " IS NULL"]
     | .NotNull e => render_any (.expression e) ++ [.text " IS NOT NULL"]
     | .Between v l r =>
         render_any (.expression v) ++ [.text " BETWEEN "]
           ++ render_any (.expression l) ++ [.text " AND "]
           ++ render_any (.expression r)
     | .NotBetween v l r =>
         render_any (.expression v) ++ [.text " NOT BETWEEN "]
           ++ render_any (.expression l) ++ [.text " AND "]
           ++ render_any (.expression r)
     | .Raw l comp r =>
         render_any (.expression l) ++ [.text " ", .text comp, .text " "]
           ++ render_any (.expression r)
     | .JsonCompare (.ArrayContains l r) =>
         render_any (.expression l) ++ [.text " @> "] ++ render_any (.expression r)
     | .JsonCompare (.ArrayContained l r) =>
         render_any (.expression l) ++ [.text " <@ "] ++ render_any (.expression r)
     | .JsonCompare (.ArrayOverlaps l r) =>
         render_any (.expression l) ++ [.text " && "] ++ render_any (.expression r)
     | .JsonCompare (.ArrayNotContains l r) =>
         [.text "( NOT "] ++ render_any (.expression l) ++ [.text " @> "]
           ++ render_any (.expression r) ++ [.text " )"]
     | .JsonCompare (.TypeEquals l t) =>
         [.text "JSONB_TYPEOF", .text "("] ++ render_any (.expression l)
           ++ [.text ")", .text " = "] ++ render_any (.jsonTypeName t)
     | .JsonCompare (.TypeNotEquals l t) =>
         [.text "JSONB_TYPEOF", .text "("] ++ render_any (.expression l)
           ++ [.text ")", .text " != "] ++ render_any (.jsonTypeName t)
     | .Any e => [.text "ANY", .text "("] ++ render_any (.expression e) ++ [.text ")"]
     | .All e => [.text "ALL", .text "("] ++ render_any (.expression e) ++ [.text ")"])
  | .jsonTypeName t =>
    (match t with
     | .Array => [.par (.str "array")]
     | .Boolean => [.par (.str "boolean")]
     | .Number => [.par (.str "number")]
     | .Object => [.par (.str "object")]
     | .String => [.par (.str "string")]
     | .Null => [.par (.str "null")]
     | .ColumnRef c =>
         [.text "JSONB_TYPEOF", .text "("] ++ render_any (.column c)
           ++ [.text "::jsonb)"])
  | .function (.mk typ aliasName) =>
    (match typ with
     | .Count [] => [.text "COUNT(*)"]
     | .Count exprs =>
         [.text "COUNT", .text "("] ++ render_any (.exprListSep ", " exprs)
           ++ [.text ")"]
     | .AggregateToString v =>
         [.text "ARRAY_TO_STRING", .text "(", .text "ARRAY_AGG", .text "("]
           ++ render_any (.expression v) ++ [.text ")", .text "','", .text ")"]
     | .RowToJson t _ =>
         [.text "ROW_TO_JSON", .text "("] ++ render_any (.table t false)
           ++ [.text ")"]
     | .Average col => [.text "AVG", .text "("] ++ render_any (.column col)
         ++ [.text ")"]
     | .Sum e => [.text "SUM", .text "("] ++ render_any (.expression e)
         ++ [.text ")"]
     | .Lower e => [.text "LOWER", .text "("] ++ render_any (.expression e)
         ++ [.text ")"]
     | .Upper e => [.text "UPPER", .text "("] ++ render_any (.expression e)
         ++ [.text ")"]
     | .Minimum col => [.text "MIN", .text "("] ++ render_any (.column col)
         ++ [.text ")"]
     | .Maximum col => [.text "MAX", .text "("] ++ render_any (.column col)
         ++ [.text ")"]
     | .Coalesce exprs =>
         [.text "COALESCE", .text "("] ++ render_any (.exprListSep ", " exprs)
           ++ [.text ")"]
     | .JsonExtract col path extractAsString =>
         [.text "("] ++ render_any (.expression col)
           ++ [.text (if extractAsString then "#>>" else "#>")]
           ++ [.text "ARRAY["] ++ json_path_params path ++ [.text "]::text[]"]
           ++ [.text ")"]
           ++ (if extractAsString then [] else [.text "::jsonb"])
     | .JsonExtractLastArrayElem e =>
         [.text "("] ++ render_any (.expression e) ++ [.text "->-1", .text ")"]
     | .JsonExtractFirstArrayElem e =>
         [.text "("] ++ render_any (.expression e) ++ [.text "->0", .text ")"]
     | .JsonUnquote e =>
         [.text "("] ++ render_any (.expression e)
           ++ [.text "#>>ARRAY[]::text[]", .text ")"]
     | .ToJsonb t => [.text "to_jsonb("] ++ render_any (.table t false)
         ++ [.text ".*)"]
     | .JsonAgg e distinct orderBy =>
         [.text "json_agg("]
           ++ (if distinct then [.text "DISTINCT "] else [])
           ++ render_any (.expression e)
           ++ (match orderBy with
               | some o => [.text " ORDER BY "] ++ render_any (.ordering o)
               | none => [])
           ++ [.text ")"]
     | .Encode e format =>
         [.text "encode("] ++ render_any (.expression e) ++ [.text ", "]
           ++ [.text (match format with
                      | .Base64 => "'base64'"
                      | .Escape => "'escape'"
                      | .Hex => "'hex'")]
           ++ [.text ")"]
     | .JsonBuildObject kvs =>
         [.text "JSON_BUILD_OBJECT", .text "("] ++ render_any (.kvList kvs)
           ++ [.text ")"]
     | .Concat exprs =>
         [.text "("] ++ render_any (.exprListSep " || " exprs) ++ [.text ")"])
    ++ (match aliasName with
        | some a => [.text " AS "] ++ delimited_identifiers [a]
        | none => [])
  | .kvList kvs =>
    (match kvs with
     | [] => []
     | [.mk k v] => [.par (.str k), .text ", "] ++ render_any (.expression v)
     | .mk k v :: kvs =>
         [.par (.str k), .text ", "] ++ render_any (.expression v)
           ++ [.text ", "] ++ render_any (.kvList kvs))
  | .ordering (.mk pairs) => render_any (.orderPairs pairs)
  | .orderPairs ps =>
    (match ps with
     | [] => []
     | [.mk e dir] =>
         render_any (.expression e)
           ++ [.text (match dir with | some d => order_direction d | none => "")]
     | .mk e dir :: ps =>
         render_any (.expression e)
           ++ [.text (match dir with | some d => order_direction d | none => "")]
           ++ [.text ", "] ++ render_any (.orderPairs ps))
  | .joins js =>
    (match js with
     | [] => []
     | j :: js =>
         (match j with
          | .Inner d => [.text " INNER JOIN "] ++ render_any (.joinData d)
          | .Left d => [.text " LEFT JOIN "] ++ render_any (.joinData d)
          | .Right d => [.text " RIGHT JOIN "] ++ render_any (.joinData d)
          | .Full d => [.text " FULL JOIN "] ++ render_any (.joinData d))
         ++ render_any (.joins js))
  | .joinData (.mk table conditions lateral) =>
      (if lateral then [.text " LATERAL "] else [])
        ++ render_any (.table table true) ++ [.text " ON "]
        ++ render_any (.conditions conditions)
  | .selectQ (.mk ctes distinct tables columns conditions ordering grouping
       having limit offset joins _comment) =>
    (if ctes.isEmpty then []
     else [.text "WITH "] ++ render_any (.cteList ctes) ++ [.text " "])
    ++ [.text "SELECT "]
    ++ (if distinct then [.text "DISTINCT "] else [])
    ++ (if tables.isEmpty then
          (if columns.isEmpty then [.text " *"]
           else render_any (.exprListSep ", " columns))
        else
          (if columns.isEmpty then star_projection_list tables
           else render_any (.exprListSep ", " columns))
          ++ [.text " FROM "]
          ++ render_any (.tableList tables)
          ++ (if joins.isEmpty then [] else render_any (.joins joins))
          ++ render_any (.whereC conditions)
          ++ render_any (.groupBy grouping)
          ++ render_any (.havingC having)
          ++ render_any (.orderBy ordering)
          ++ visit_limit_and_offset limit offset)
  | .whereC conditions =>
    (match conditions with
     | some c => [.text " WHERE "] ++ render_any (.conditions c)
     | none => [])
  | .groupBy g =>
    (match g with
     | .mk [] => []
     | .mk es => [.text " GROUP BY "] ++ render_any (.exprListSep ", " es))
  | .havingC having =>
    (match having with
     | some c => [.text " HAVING "] ++ render_any (.conditions c)
     | none => [])
  | .orderBy o =>
    (match o with
     | .mk [] => []
     | .mk ps => [.text " ORDER BY "] ++ render_any (.orderPairs ps))
  | .tableList ts =>
    (match ts with
     | [] => []
     | [t] => render_any (.table t true)
     | t :: ts => render_any (.table t true) ++ [.text ", "]
         ++ render_any (.tableList ts))
  | .cteList cs =>
    (match cs with
     | [] => []
     | [c] => render_any (.cte c)
     | c :: cs => render_any (.cte c) ++ [.text ", "] ++ render_any (.cteList cs))
  | .cte (.mk name q) =>
      delimited_identifiers [name] ++ [.text " AS ", .text "("]
        ++ render_any (.query q) ++ [.text ")"]
  | .query q =>
    (match q with
     | .Select s => render_any (.selectQ s)
     | .Insert i => render_any (.insert i)
     | .Update u => render_any (.update u)
     | .Delete d => render_any (.delete d))
  | .insert (.mk table columns values onConflict returning _comment) =>
    [.text "INSERT "]
    ++ (match table with
        | some t => [.text "INTO "] ++ render_any (.table t true)
        | none => [])
    ++ (match values with
        | .mk (.Row row) _ =>
            (match row with
             | Row.mk [] => [.text " DEFAULT VALUES"]
             | row =>
                 [.text " ("] ++ bare_column_names columns
                   ++ [.text ")", .text " VALUES "] ++ render_any (.row row))
        | .mk (.Values (Values.mk rows)) _ =>
            [.text " ("] ++ bare_column_names columns
              ++ [.text ")", .text " VALUES "] ++ render_any (.rowListSep ", " rows)
        | expr => [.text "("] ++ render_any (.expression expr) ++ [.text ")"])
    ++ (match onConflict with
        | some .DoNothing => [.text " ON CONFLICT DO NOTHING"]
        | some (.Update u constraints) =>
            [.text " ON CONFLICT"] ++ columns_to_bracket_list constraints
              ++ [.text " DO "] ++ render_any (.upsert u)
        | none => [])
    ++ (match returning with
        | some cols =>
            if cols.isEmpty then []
            else [.text " RETURNING "] ++ render_any (.columnList cols)
        | none => [])
  | .update (.mk table columns values conditions returning) =>
    [.text "UPDATE "] ++ render_any (.table table true)
    ++ [.text " SET "] ++ render_any (.updatePairs columns values)
    ++ render_any (.whereC conditions)
    ++ (match returning with
        | some cols =>
            if cols.isEmpty then []
            else [.text " RETURNING "] ++ render_any (.columnList cols)
        | none => [])
  | .upsert (.mk _table columns values conditions _returning) =>
    [.text "UPDATE ", .text "SET "] ++ render_any (.updatePairs columns values)
    ++ render_any (.whereC conditions)
  | .delete (.mk table conditions) =>
      [.text "DELETE FROM "] ++ render_any (.table table true)
        ++ render_any (.whereC conditions)
  | .columnList cs =>
    (match cs with
     | [] => []
     | [c] => render_any (.column c)
     | c :: cs => render_any (.column c) ++ [.text ", "]
         ++ render_any (.columnList cs))
  | .exprListSep sep es =>
    (match es with
     | [] => []
     | [e] => render_any (.expression e)
     | e :: es => render_any (.expression e) ++ [.text sep]
         ++ render_any (.exprListSep sep es))
  | .rowListSep sep rs =>
    (match rs with
     | [] => []
     | [r] => render_any (.row r)
     | r :: rs => render_any (.row r) ++ [.text sep]
         ++ render_any (.rowListSep sep rs))
  | .updatePairs cs vs =>
    (match cs, vs with
     | [], _ => []
     | _, [] => []
     | [c], v :: _ => render_any (.column c) ++ [.text " = "]
         ++ render_any (.expression v)
     | c :: _, [v] => render_any (.column c) ++ [.text " = "]
         ++ render_any (.expression v)
     | c :: cs, v :: vs =>
         render_any (.column c) ++ [.text " = "] ++ render_any (.expression v)
           ++ [.text ", "] ++ render_any (.updatePairs cs vs))
termination_by (match x with
   | .expression e => sizeOf e
   | .column c => sizeOf c
   | .table t _ => sizeOf t
   | .row r => sizeOf r
   | .values v => sizeOf v
   | .conditions t => sizeOf t
   | .operation o => sizeOf o
   | .compare c => sizeOf c
   | .jsonTypeName t => sizeOf t
   | .function f => sizeOf f
   | .kvList kvs => sizeOf kvs
   | .ordering o => sizeOf o
   | .orderPairs ps => sizeOf ps
   | .joins js => sizeOf js
   | .joinData d => sizeOf d
   | .selectQ s => sizeOf s
   | .whereC c => sizeOf c
   | .groupBy g => sizeOf g
   | .havingC c => sizeOf c
   | .orderBy o => sizeOf o
   | .tableList ts => sizeOf ts
   | .cteList cs => sizeOf cs
   | .cte c => sizeOf c
   | .query q => sizeOf q
   | .insert i => sizeOf i
   | .update u => sizeOf u
   | .upsert u => sizeOf u
   | .delete d => sizeOf d
   | .columnList cs => sizeOf cs
   | .exprListSep _ es => sizeOf es
   | .rowListSep _ rs => sizeOf rs
   | .updatePairs cs vs => sizeOf cs + sizeOf vs)
decreasing_by
all_goals simp
all_goals omega

/-- `Renderer::visit_expression`. -/
def visit_expression (e : Expression) : List Act := render_any (.expression e)

/-- `Renderer::visit_column`. -/
def visit_column (c : Column) : List Act := render_any (.column c)

/-- `Renderer::visit_table`. -/
def visit_table (t : Table) (includeAlias : Bool) : List Act :=
  render_any (.table t includeAlias)

/-- `Renderer::visit_row`. -/
def visit_row (r : Row) : List Act := render_any (.row r)

/-- `Renderer::visit_values`. -/
def visit_values (v : Values) : List Act := render_any (.values v)

/-- `Renderer::visit_conditions`. -/
def visit_conditions (t : ConditionTree) : List Act := render_any (.conditions t)

/-- `Renderer::visit_operation`. -/
def visit_operation (o : SqlOp) : List Act := render_any (.operation o)

/-- `Renderer::visit_compare` (with the PostgreSQL hooks). -/
def visit_compare (c : Compare) : List Act := render_any (.compare c)

/-- `Renderer::visit_function` (with the PostgreSQL hooks). -/
def visit_function (f : Function) : List Act := render_any (.function f)

/-- `Postgres::visit_ordering`. -/
def visit_ordering (o : Ordering) : List Act := render_any (.ordering o)

/-- `Renderer::visit_grouping`: the expressions `, `-separated. -/
def visit_grouping (g : Grouping) : List Act := render_any (.exprListSep ", " g.1)

/-- `Renderer::visit_joins`. -/
def visit_joins (js : List Join) : List Act := render_any (.joins js)

/-- `Postgres::visit_join_data`. -/
def visit_join_data (d : JoinData) : List Act := render_any (.joinData d)

/-- `Renderer::visit_select`. -/
def visit_select (s : Select) : List Act := render_any (.selectQ s)

/-- `Renderer::visit_common_table_expression`. -/
def visit_common_table_expression (c : CommonTableExpression) : List Act :=
  render_any (.cte c)

/-- `Renderer::visit_query`. -/
def visit_query (q : Query) : List Act := render_any (.query q)

/-- `Postgres::visit_insert`. -/
def visit_insert (i : Insert) : List Act := render_any (.insert i)

/-- `Renderer::visit_update`. -/
def visit_update (u : Update) : List Act := render_any (.update u)

/-- `Renderer::visit_upsert`. -/
def visit_upsert (u : Update) : List Act := render_any (.upsert u)

/-- The PostgreSQL `visit_delete` (modelled from the spec, see
`render_any`). -/
def visit_delete (d : Delete) : List Act := render_any (.delete d)

/-- `Renderer::visit_multiple_tuple_comparison` (inlined at its call
sites inside the `In`/`NotIn` arms of `render_any`). -/
def visit_multiple_tuple_comparison (l : Row) (r : Values) (negate : Bool) : List Act :=
  visit_row l ++ [.text (if negate then " NOT IN " else " IN ")] ++ visit_values r

/-- `Postgres::visit_array_contains` (`@>`, with an optional
`( NOT ... )` wrapper; inlined at its call sites in `render_any`). -/
def visit_array_contains (l r : Expression) (negated : Bool) : List Act :=
  (if negated then [.text "( NOT "] else [])
    ++ visit_expression l ++ [.text " @> "] ++ visit_expression r
    ++ (if negated then [.text " )"] else [])

/-- `Postgres::visit_array_contained` (`<@`, with an optional
`( NOT ... )` wrapper). -/
def visit_array_contained (l r : Expression) (negated : Bool) : List Act :=
  (if negated then [.text "( NOT "] else [])
    ++ visit_expression l ++ [.text " <@ "] ++ visit_expression r
    ++ (if negated then [.text " )"] else [])

/-- `Postgres::visit_json_type_equals` (inlined at its call sites in
`render_any`). -/
def visit_json_type_equals (l : Expression) (t : JsonType) (negated : Bool) : List Act :=
  [.text "JSONB_TYPEOF", .text "("] ++ visit_expression l ++ [.text ")"]
    ++ [.text (if negated then " != " else " = ")]
    ++ render_any (.jsonTypeName t)

/-- `Postgres::visit_aggregate_to_string` (inlined at its call site in
`render_any`). -/
def visit_aggregate_to_string (v : Expression) : List Act :=
  [.text "ARRAY_TO_STRING", .text "(", .text "ARRAY_AGG", .text "("]
    ++ visit_expression v ++ [.text ")", .text "','", .text ")"]

/-- `Postgres::build`: render the query from empty accumulators and
return the finished text and parameters. -/
def build (q : Query) : String × List JVal :=
  let s := apply ⟨[], []⟩ (visit_query q)
  (renderChunks s.query, s.parameters)

/-- `ConditionTree::and` (`conditions.rs` lines 27-39): an existing `And`
appends, a `Single` contributes its inner expression to a fresh 2-element
`And`, and any other shape is wrapped (`Expression::from(self)`) into a
fresh 2-element `And`. -/
def ConditionTree.and (t : ConditionTree) (other : Expression) : ConditionTree :=
  match t with
  | .And conditions => .And (conditions ++ [other])
  | .Single expr => .And [expr, other]
  | t => .And [.mk (.ConditionTree t) none, other]

/-- `ConditionTree::or` (`conditions.rs` lines 42-54). -/
def ConditionTree.or (t : ConditionTree) (other : Expression) : ConditionTree :=
  match t with
  | .Or conditions => .Or (conditions ++ [other])
  | .Single expr => .Or [expr, other]
  | t => .Or [.mk (.ConditionTree t) none, other]

/-- `Conjunctive::and` for anything convertible to an expression
(`conjunctive.rs`): a fresh 2-element `And`. -/
def conjunctive_and (a other : Expression) : ConditionTree :=
  .And [a, other]

/-- `Comparable::in_selection` (`expression.rs`): `Compare::In`. -/
def in_selection (l selection : Expression) : Compare :=
  .In l selection

/-- `Comparable::not_in_selection` (`expression.rs`): `Compare::NotIn`. -/
def not_in_selection (l selection : Expression) : Compare :=
  .NotIn l selection

/-- `Table::left_join` (`table.rs` lines 58-77).  The Rust function
panics on a `Query` or `Values` table; the panic is modelled as `none`. -/
def Table.left_join (t : Table) (j : JoinData) : Option Table :=
  match t with
  | .mk (.Table name) al db =>
      some (.mk (.JoinedTable name [.Left j]) al db)
  | .mk (.JoinedTable name js) al db =>
      some (.mk (.JoinedTable name (js ++ [.Left j])) al db)
  | .mk (.Query _) _ _ => none
  | .mk (.Values _) _ _ => none

/-- `Table::inner_join` (`table.rs` lines 81-100), panic as `none`. -/
def Table.inner_join (t : Table) (j : JoinData) : Option Table :=
  match t with
  | .mk (.Table name) al db =>
      some (.mk (.JoinedTable name [.Inner j]) al db)
  | .mk (.JoinedTable name js) al db =>
      some (.mk (.JoinedTable name (js ++ [.Inner j])) al db)
  | .mk (.Query _) _ _ => none
  | .mk (.Values _) _ _ => none

/-- `Table::right_join` (`table.rs` lines 104-123), panic as `none`. -/
def Table.right_join (t : Table) (j : JoinData) : Option Table :=
  match t with
  | .mk (.Table name) al db =>
      some (.mk (.JoinedTable name [.Right j]) al db)
  | .mk (.JoinedTable name js) al db =>
      some (.mk (.JoinedTable name (js ++ [.Right j])) al db)
  | .mk (.Query _) _ _ => none
  | .mk (.Values _) _ _ => none

/-- `Table::full_join` (`table.rs` lines 127-146), panic as `none`. -/
def Table.full_join (t : Table) (j : JoinData) : Option Table :=
  match t with
  | .mk (.Table name) al db =>
      some (.mk (.JoinedTable name [.Full j]) al db)
  | .mk (.JoinedTable name js) al db =>
      some (.mk (.JoinedTable name (js ++ [.Full j])) al db)
  | .mk (.Query _) _ _ => none
  | .mk (.Values _) _ _ => none

/-- `impl From<&str> for Table`: a plain table with no alias and no
database. -/
def Table.from_string (s : String) : Table :=
  .mk (.Table s) none none

/-- `Select::from_table`: a default select over one table. -/
def Select.from_table (t : Table) : Select :=
  .mk [] false [t] [] none (.mk []) (.mk []) none none none [] none

/-- `Select::limit`. -/
def Select.limit : Select → Nat → Select
  | .mk ctes d tbls cols conds ord grp hav _ off js cm, l =>
      .mk ctes d tbls cols conds ord grp hav (some l) off js cm

/-- `Select::offset`. -/
def Select.offset : Select → Nat → Select
  | .mk ctes d tbls cols conds ord grp hav lim _ js cm, o =>
      .mk ctes d tbls cols conds ord grp hav lim (some o) js cm

/-- The predicate of `matches!(&left.kind, ExpressionKind::Column(_))`
used by the PostgreSQL `visit_like`/`visit_not_like`. -/
def is_column_kind (e : Expression) : Bool :=
  match e with
  | .mk (.Column _) _ => true
  | _ => false

/-!
Structural equality of the AST, mirroring the Rust `PartialEq`
implementations.  Almost every node type derives `PartialEq`
field-by-field; the two exceptions are hand-written in the source:
`Column` compares only `name` and `table` (ignoring its alias,
`column.rs` lines 20-24) and `Table` compares only `typ` and `database`
(ignoring its alias, `table.rs` lines 32-36).  The derived equality of a
containing type uses these manual implementations for its `Column` and
`Table` fields, so the whole family is mutually recursive; like the
renderer it is defunctionalized into a single function `eq_any` over a
sum of argument pairs, one constructor per compared type.
-/

/-- One pair of compared values: `a` and `b` of the same AST (or
option/list-of-AST) type, one constructor per `PartialEq`
implementation. -/
inductive EqArg where
  | expression (a b : Expression)
  | expressionKind (a b : ExpressionKind)
  | column (a b : Column)
  | table (a b : Table)
  | tableType (a b : TableType)
  | row (a b : Row)
  | values (a b : Values)
  | conditionTree (a b : ConditionTree)
  | compare (a b : Compare)
  | jsonCompare (a b : JsonCompare)
  | jsonType (a b : JsonType)
  | function (a b : Function)
  | functionType (a b : FunctionType)
  | ordering (a b : Ordering)
  | grouping (a b : Grouping)
  | sqlOp (a b : SqlOp)
  | join (a b : Join)
  | joinData (a b : JoinData)
  | selectQ (a b : Select)
  | cte (a b : CommonTableExpression)
  | query (a b : Query)
  | insert (a b : Insert)
  | onConflict (a b : OnConflict)
  | update (a b : Update)
  | delete (a b : Delete)
  | optTable (a b : Option Table)
  | optConditionTree (a b : Option ConditionTree)
  | optOrdering (a b : Option Ordering)
  | optOnConflict (a b : Option OnConflict)
  | optColumnList (a b : Option (List Column))
  | exprList (a b : List Expression)
  | rowList (a b : List Row)
  | tableList (a b : List Table)
  | columnList (a b : List Column)
  | joinList (a b : List Join)
  | cteList (a b : List CommonTableExpression)
  | orderPairList (a b : List OrderPair)
  | kvPairList (a b : List KeyValue)

/-- The one generic structural-equality recursion, one match arm per
`PartialEq` implementation.  Every arm is the field-by-field derived
equality of the corresponding Rust type except the two hand-written
implementations: the `.column` arm is `column.rs` lines 20-24
(`self.name == other.name && self.table == other.table`, alias ignored)
and the `.table` arm is `table.rs` lines 32-36
(`self.typ == other.typ && self.database == other.database`, alias
ignored).  The `.opt*` and `*List` arms are the structural `Option` and
`Vec` equalities instantiated at element types whose equality is
hand-written (directly or transitively). -/
def eq_any (x : EqArg) : Bool :=
  match x with
  | .expression a b =>
    (match a, b with
     | .mk k al, .mk k' al' => eq_any (.expressionKind k k') && al == al')
  | .expressionKind a b =>
    (match a, b with
     | .Parameterized v, .Parameterized v' => v == v'
     | .Raw t, .Raw t' => t == t'
     | .Column c, .Column c' => eq_any (.column c c')
     | .Table t, .Table t' => eq_any (.table t t')
     | .Row r, .Row r' => eq_any (.row r r')
     | .Selection s, .Selection s' => eq_any (.selectQ s s')
     | .Function f, .Function f' => eq_any (.function f f')
     | .Asterisk t, .Asterisk t' => eq_any (.optTable t t')
     | .Op o, .Op o' => eq_any (.sqlOp o o')
     | .ConditionTree t, .ConditionTree t' => eq_any (.conditionTree t t')
     | .Compare c, .Compare c' => eq_any (.compare c c')
     | .Value e, .Value e' => eq_any (.expression e e')
     | .Values v, .Values v' => eq_any (.values v v')
     | .Default, .Default => true
     | _, _ => false)
  | .column a b =>
    (match a, b with
     | .mk n t _, .mk n' t' _ => n == n' && eq_any (.optTable t t'))
  | .table a b =>
    (match a, b with
     | .mk ty _ db, .mk ty' _ db' => eq_any (.tableType ty ty') && db == db')
  | .tableType a b =>
    (match a, b with
     | .Table n, .Table n' => n == n'
     | .JoinedTable n js, .JoinedTable n' js' => n == n' && eq_any (.joinList js js')
     | .Query s, .Query s' => eq_any (.selectQ s s')
     | .Values v, .Values v' => eq_any (.values v v')
     | _, _ => false)
  | .row a b =>
    (match a, b with
     | .mk vs, .mk vs' => eq_any (.exprList vs vs'))
  | .values a b =>
    (match a, b with
     | .mk rs, .mk rs' => eq_any (.rowList rs rs'))
  | .conditionTree a b =>
    (match a, b with
     | .And es, .And es' => eq_any (.exprList es es')
     | .Or es, .Or es' => eq_any (.exprList es es')
     | .Not e, .Not e' => eq_any (.expression e e')
     | .Single e, .Single e' => eq_any (.expression e e')
     | .NoCondition, .NoCondition => true
     | .NegativeCondition, .NegativeCondition => true
     | .Exists t, .Exists t' => eq_any (.table t t')
     | _, _ => false)
  | .compare a b =>
    (match a, b with
     | .Equals l r, .Equals l' r' =>
         eq_any (.expression l l') && eq_any (.expression r r')
     | .NotEquals l r, .NotEquals l' r' =>
         eq_any (.expression l l') && eq_any (.expression r r')
     | .LessThan l r, .LessThan l' r' =>
         eq_any (.expression l l') && eq_any (.expression r r')
     | .LessThanOrEquals l r, .LessThanOrEquals l' r' =>
         eq_any (.expression l l') && eq_any (.expression r r')
     | .GreaterThan l r, .GreaterThan l' r' =>
         eq_any (.expression l l') && eq_any (.expression r r')
     | .GreaterThanOrEquals l r, .GreaterThanOrEquals l' r' =>
         eq_any (.expression l l') && eq_any (.expression r r')
     | .In l r, .In l' r' =>
         eq_any (.expression l l') && eq_any (.expression r r')
     | .NotIn l r, .NotIn l' r' =>
         eq_any (.expression l l') && eq_any (.expression r r')
     | .Like l r, .Like l' r' =>
         eq_any (.expression l l') && eq_any (.expression r r')
     | .NotLike l r, .NotLike l' r' =>
         eq_any (.expression l l') && eq_any (.expression r r')
     | .Null e, .Null e' => eq_any (.expression e e')
     | .NotNull e, .NotNull e' => eq_any (.expression e e')
     | .Between v l r, .Between v' l' r' =>
         eq_any (.expression v v') && eq_any (.expression l l')
           && eq_any (.expression r r')
     | .NotBetween v l r, .NotBetween v' l' r' =>
         eq_any (.expression v v') && eq_any (.expression l l')
           && eq_any (.expression r r')
     | .Raw l c r, .Raw l' c' r' =>
         eq_any (.expression l l') && c == c' && eq_any (.expression r r')
     | .JsonCompare j, .JsonCompare j' => eq_any (.jsonCompare j j')
     | .Any e, .Any e' => eq_any (.expression e e')
     | .All e, .All e' => eq_any (.expression e e')
     | _, _ => false)
  | .jsonCompare a b =>
    (match a, b with
     | .ArrayOverlaps l r, .ArrayOverlaps l' r' =>
         eq_any (.expression l l') && eq_any (.expression r r')
     | .ArrayContains l r, .ArrayContains l' r' =>
         eq_any (.expression l l') && eq_any (.expression r r')
     | .ArrayContained l r, .ArrayContained l' r' =>
         eq_any (.expression l l') && eq_any (.expression r r')
     | .ArrayNotContains l r, .ArrayNotContains l' r' =>
         eq_any (.expression l l') && eq_any (.expression r r')
     | .TypeEquals l t, .TypeEquals l' t' =>
         eq_any (.expression l l') && eq_any (.jsonType t t')
     | .TypeNotEquals l t, .TypeNotEquals l' t' =>
         eq_any (.expression l l') && eq_any (.jsonType t t')
     | _, _ => false)
  | .jsonType a b =>
    (match a, b with
     | .Array, .Array => true
     | .Object, .Object => true
     | .String, .String => true
     | .Number, .Number => true
     | .Boolean, .Boolean => true
     | .Null, .Null => true
     | .ColumnRef c, .ColumnRef c' => eq_any (.column c c')
     | _, _ => false)
  | .function a b =>
    (match a, b with
     | .mk t al, .mk t' al' => eq_any (.functionType t t') && al == al')
  | .functionType a b =>
    (match a, b with
     | .Count es, .Count es' => eq_any (.exprList es es')
     | .AggregateToString v, .AggregateToString v' => eq_any (.expression v v')
     | .Average c, .Average c' => eq_any (.column c c')
     | .Sum e, .Sum e' => eq_any (.expression e e')
     | .Lower e, .Lower e' => eq_any (.expression e e')
     | .Upper e, .Upper e' => eq_any (.expression e e')
     | .Minimum c, .Minimum c' => eq_any (.column c c')
     | .Maximum c, .Maximum c' => eq_any (.column c c')
     | .Coalesce es, .Coalesce es' => eq_any (.exprList es es')
     | .Concat es, .Concat es' => eq_any (.exprList es es')
     | .JsonExtract c p s, .JsonExtract c' p' s' =>
         eq_any (.expression c c') && p == p' && s == s'
     | .JsonExtractLastArrayElem e, .JsonExtractLastArrayElem e' =>
         eq_any (.expression e e')
     | .JsonExtractFirstArrayElem e, .JsonExtractFirstArrayElem e' =>
         eq_any (.expression e e')
     | .JsonUnquote e, .JsonUnquote e' => eq_any (.expression e e')
     | .RowToJson t s, .RowToJson t' s' => eq_any (.table t t') && s == s'
     | .ToJsonb t, .ToJsonb t' => eq_any (.table t t')
     | .JsonAgg e d o, .JsonAgg e' d' o' =>
         eq_any (.expression e e') && d == d' && eq_any (.optOrdering o o')
     | .Encode e f, .Encode e' f' => eq_any (.expression e e') && f == f'
     | .JsonBuildObject kvs, .JsonBuildObject kvs' =>
         eq_any (.kvPairList kvs kvs')
     | _, _ => false)
  | .ordering a b =>
    (match a, b with
     | .mk ps, .mk ps' => eq_any (.orderPairList ps ps'))
  | .grouping a b =>
    (match a, b with
     | .mk es, .mk es' => eq_any (.exprList es es'))
  | .sqlOp a b =>
    (match a, b with
     | .Add l r, .Add l' r' =>
         eq_any (.expression l l') && eq_any (.expression r r')
     | .Sub l r, .Sub l' r' =>
         eq_any (.expression l l') && eq_any (.expression r r')
     | .Mul l r, .Mul l' r' =>
         eq_any (.expression l l') && eq_any (.expression r r')
     | .Div l r, .Div l' r' =>
         eq_any (.expression l l') && eq_any (.expression r r')
     | .Rem l r, .Rem l' r' =>
         eq_any (.expression l l') && eq_any (.expression r r')
     | .Append l r, .Append l' r' =>
         eq_any (.expression l l') && eq_any (.expression r r')
     | .JsonDeleteAtPath l r, .JsonDeleteAtPath l' r' =>
         eq_any (.expression l l') && eq_any (.expression r r')
     | _, _ => false)
  | .join a b =>
    (match a, b with
     | .Inner d, .Inner d' => eq_any (.joinData d d')
     | .Left d, .Left d' => eq_any (.joinData d d')
     | .Right d, .Right d' => eq_any (.joinData d d')
     | .Full d, .Full d' => eq_any (.joinData d d')
     | _, _ => false)
  | .joinData a b =>
    (match a, b with
     | .mk t c l, .mk t' c' l' =>
         eq_any (.table t t') && eq_any (.conditionTree c c') && l == l')
  | .selectQ a b =>
    (match a, b with
     | .mk ctes d tbls cols conds ord grp hav lim off js cm,
       .mk ctes' d' tbls' cols' conds' ord' grp' hav' lim' off' js' cm' =>
         eq_any (.cteList ctes ctes') && d == d'
           && eq_any (.tableList tbls tbls') && eq_any (.exprList cols cols')
           && eq_any (.optConditionTree conds conds')
           && eq_any (.ordering ord ord') && eq_any (.grouping grp grp')
           && eq_any (.optConditionTree hav hav') && lim == lim' && off == off'
           && eq_any (.joinList js js') && cm == cm')
  | .cte a b =>
    (match a, b with
     | .mk n q, .mk n' q' => n == n' && eq_any (.query q q'))
  | .query a b =>
    (match a, b with
     | .Select s, .Select s' => eq_any (.selectQ s s')
     | .Insert i, .Insert i' => eq_any (.insert i i')
     | .Update u, .Update u' => eq_any (.update u u')
     | .Delete d, .Delete d' => eq_any (.delete d d')
     | _, _ => false)
  | .insert a b =>
    (match a, b with
     | .mk t cs vs oc r cm, .mk t' cs' vs' oc' r' cm' =>
         eq_any (.optTable t t') && eq_any (.columnList cs cs')
           && eq_any (.expression vs vs') && eq_any (.optOnConflict oc oc')
           && eq_any (.optColumnList r r') && cm == cm')
  | .onConflict a b =>
    (match a, b with
     | .DoNothing, .DoNothing => true
     | .Update u cs, .Update u' cs' =>
         eq_any (.update u u') && eq_any (.columnList cs cs')
     | _, _ => false)
  | .update a b =>
    (match a, b with
     | .mk t cs vs conds r, .mk t' cs' vs' conds' r' =>
         eq_any (.table t t') && eq_any (.columnList cs cs')
           && eq_any (.exprList vs vs')
           && eq_any (.optConditionTree conds conds')
           && eq_any (.optColumnList r r'))
  | .delete a b =>
    (match a, b with
     | .mk t conds, .mk t' conds' =>
         eq_any (.table t t') && eq_any (.optConditionTree conds conds'))
  | .optTable a b =>
    (match a, b with
     | none, none => true
     | some t, some t' => eq_any (.table t t')
     | _, _ => false)
  | .optConditionTree a b =>
    (match a, b with
     | none, none => true
     | some c, some c' => eq_any (.conditionTree c c')
     | _, _ => false)
  | .optOrdering a b =>
    (match a, b with
     | none, none => true
     | some o, some o' => eq_any (.ordering o o')
     | _, _ => false)
  | .optOnConflict a b =>
    (match a, b with
     | none, none => true
     | some o, some o' => eq_any (.onConflict o o')
     | _, _ => false)
  | .optColumnList a b =>
    (match a, b with
     | none, none => true
     | some cs, some cs' => eq_any (.columnList cs cs')
     | _, _ => false)
  | .exprList a b =>
    (match a, b with
     | [], [] => true
     | e :: es, e' :: es' => eq_any (.expression e e') && eq_any (.exprList es es')
     | _, _ => false)
  | .rowList a b =>
    (match a, b with
     | [], [] => true
     | r :: rs, r' :: rs' => eq_any (.row r r') && eq_any (.rowList rs rs')
     | _, _ => false)
  | .tableList a b =>
    (match a, b with
     | [], [] => true
     | t :: ts, t' :: ts' => eq_any (.table t t') && eq_any (.tableList ts ts')
     | _, _ => false)
  | .columnList a b =>
    (match a, b with
     | [], [] => true
     | c :: cs, c' :: cs' => eq_any (.column c c') && eq_any (.columnList cs cs')
     | _, _ => false)
  | .joinList a b =>
    (match a, b with
     | [], [] => true
     | j :: js, j' :: js' => eq_any (.join j j') && eq_any (.joinList js js')
     | _, _ => false)
  | .cteList a b =>
    (match a, b with
     | [], [] => true
     | c :: cs, c' :: cs' => eq_any (.cte c c') && eq_any (.cteList cs cs')
     | _, _ => false)
  | .orderPairList a b =>
    (match a, b with
     | [], [] => true
     | .mk e d :: ps, .mk e' d' :: ps' =>
         eq_any (.expression e e') && d == d' && eq_any (.orderPairList ps ps')
     | _, _ => false)
  | .kvPairList a b =>
    (match a, b with
     | [], [] => true
     | .mk k v :: ps, .mk k' v' :: ps' =>
         k == k' && eq_any (.expression v v') && eq_any (.kvPairList ps ps')
     | _, _ => false)
termination_by (match x with
   | .expression a _ => sizeOf a
   | .expressionKind a _ => sizeOf a
   | .column a _ => sizeOf a
   | .table a _ => sizeOf a
   | .tableType a _ => sizeOf a
   | .row a _ => sizeOf a
   | .values a _ => sizeOf a
   | .conditionTree a _ => sizeOf a
   | .compare a _ => sizeOf a
   | .jsonCompare a _ => sizeOf a
   | .jsonType a _ => sizeOf a
   | .function a _ => sizeOf a
   | .functionType a _ => sizeOf a
   | .ordering a _ => sizeOf a
   | .grouping a _ => sizeOf a
   | .sqlOp a _ => sizeOf a
   | .join a _ => sizeOf a
   | .joinData a _ => sizeOf a
   | .selectQ a _ => sizeOf a
   | .cte a _ => sizeOf a
   | .query a _ => sizeOf a
   | .insert a _ => sizeOf a
   | .onConflict a _ => sizeOf a
   | .update a _ => sizeOf a
   | .delete a _ => sizeOf a
   | .optTable a _ => sizeOf a
   | .optConditionTree a _ => sizeOf a
   | .optOrdering a _ => sizeOf a
   | .optOnConflict a _ => sizeOf a
   | .optColumnList a _ => sizeOf a
   | .exprList a _ => sizeOf a
   | .rowList a _ => sizeOf a
   | .tableList a _ => sizeOf a
   | .columnList a _ => sizeOf a
   | .joinList a _ => sizeOf a
   | .cteList a _ => sizeOf a
   | .orderPairList a _ => sizeOf a
   | .kvPairList a _ => sizeOf a)
decreasing_by
all_goals simp
all_goals omega

/-- The hand-written `PartialEq` for `Column` (`column.rs` lines 20-24):
`self.name == other.name && self.table == other.table` - the alias is
ignored. -/
def eq_column (a : Column) (b : Column) : Bool := eq_any (.column a b)

/-- The hand-written `PartialEq` for `Table` (`table.rs` lines 32-36):
`self.typ == other.typ && self.database == other.database` - the alias
is ignored. -/
def eq_table (a : Table) (b : Table) : Bool := eq_any (.table a b)

/-- The diagonal on compared pairs: both components of an `EqArg` are
the same value. -/
def EqDiag : EqArg → Prop
  | .expression a b => a = b
  | .expressionKind a b => a = b
  | .column a b => a = b
  | .table a b => a = b
  | .tableType a b => a = b
  | .row a b => a = b
  | .values a b => a = b
  | .conditionTree a b => a = b
  | .compare a b => a = b
  | .jsonCompare a b => a = b
  | .jsonType a b => a = b
  | .function a b => a = b
  | .functionType a b => a = b
  | .ordering a b => a = b
  | .grouping a b => a = b
  | .sqlOp a b => a = b
  | .join a b => a = b
  | .joinData a b => a = b
  | .selectQ a b => a = b
  | .cte a b => a = b
  | .query a b => a = b
  | .insert a b => a = b
  | .onConflict a b => a = b
  | .update a b => a = b
  | .delete a b => a = b
  | .optTable a b => a = b
  | .optConditionTree a b => a = b
  | .optOrdering a b => a = b
  | .optOnConflict a b => a = b
  | .optColumnList a b => a = b
  | .exprList a b => a = b
  | .rowList a b => a = b
  | .tableList a b => a = b
  | .columnList a b => a = b
  | .joinList a b => a = b
  | .cteList a b => a = b
  | .orderPairList a b => a = b
  | .kvPairList a b => a = b

/-- The placeholder numbers occurring in the text buffer, in order of
emission. -/
def phNums (cs : List Chunk) : List Nat :=
  cs.filterMap fun c =>
    match c with
    | .param n => some n
    | .str _ => none

/-- The placeholder/parameter coupling: the placeholder numbers written so
far are exactly `1, 2, ..., parameters.len()` in order. -/
def PlaceholderInv (s : RState) : Prop :=
  phNums s.query = List.range' 1 s.parameters.length

/-- A single action preserves the placeholder/parameter coupling: `write`
adds no placeholder and no parameter, while `visit_parameterized` first
appends the value (`add_parameter`) and then writes the placeholder
numbered with the new length (`parameter_substitution`). -/
theorem apply_act_inv {s : RState} (h : PlaceholderInv s) (a : Act) :
    PlaceholderInv (apply_act s a) := by
  have h2 : phNums s.query = List.range' 1 s.parameters.length := h
  cases a with
  | text t =>
      show phNums (s.query ++ [.str t]) = List.range' 1 s.parameters.length
      simp [phNums, List.filterMap_append] at h2 ⊢
      exact h2
  | par v =>
      show phNums (s.query ++ [.param (s.parameters ++ [v]).length])
        = List.range' 1 (s.parameters ++ [v]).length
      simp only [phNums, List.filterMap_append, List.filterMap_cons,
        List.filterMap_nil, List.length_append, List.length_cons,
        List.length_nil] at h2 ⊢
      rw [List.range'_1_concat]
      rw [h2]
      simp [Nat.add_comm]

/-- Folding any action sequence preserves the coupling. -/
theorem apply_inv (acts : List Act) :
    ∀ s : RState, PlaceholderInv s → PlaceholderInv (apply s acts) := by
  induction acts with
  | nil => intro s h; simpa [apply] using h
  | cons a rest ih =>
      intro s h
      have h1 : PlaceholderInv (apply_act s a) := apply_act_inv h a
      simpa [apply] using ih (apply_act s a) h1

attribute [simp] Chunk.render renderChunks write add_parameter
  parameter_substitution visit_parameterized apply_act apply Row.is_empty
  Values.row_len Values.flatten_row surround_with_backticks
  delimited_identifiers visit_limit_and_offset json_path_params
  bare_column_names columns_to_bracket_list star_projection
  star_projection_list order_direction render_any visit_expression
  visit_column visit_table visit_row visit_values
  visit_multiple_tuple_comparison visit_conditions visit_operation
  visit_compare visit_array_contains
  visit_array_contained visit_json_type_equals visit_function
  visit_aggregate_to_string visit_ordering
  visit_grouping visit_joins visit_join_data visit_select
  visit_common_table_expression visit_query visit_insert
  visit_update visit_upsert visit_delete build
  ConditionTree.and ConditionTree.or conjunctive_and in_selection
  not_in_selection Table.left_join Table.inner_join Table.right_join
  Table.full_join Table.from_string Select.from_table Select.limit
  Select.offset is_column_kind eq_column eq_table eq_any

/-!
Reflexivity of the structural equality family: syntactically identical
nodes compare equal.  (Needed to conclude that two references to the same
column differing only in aliases compare equal.)
-/

/-- A diagonal compared pair - one whose two components are the same
value - evaluates to `true` under the structural equality `eq_any`. -/
theorem eq_any_refl : ∀ (x : EqArg), EqDiag x → eq_any x = true
  | .expression (.mk k al) _, h => by
      simp only [EqDiag] at h; subst h
      simp [eq_any, eq_any_refl (.expressionKind k k) rfl]
  | .expressionKind (.Parameterized v) _, h => by
      simp only [EqDiag] at h; subst h; simp [eq_any]
  | .expressionKind (.Raw t) _, h => by
      simp only [EqDiag] at h; subst h; simp [eq_any]
  | .expressionKind (.Column c) _, h => by
      simp only [EqDiag] at h; subst h
      simp [eq_any, eq_any_refl (.column c c) rfl]
  | .expressionKind (.Table t) _, h => by
      simp only [EqDiag] at h; subst h
      simp [eq_any, eq_any_refl (.table t t) rfl]
  | .expressionKind (.Row r) _, h => by
      simp only [EqDiag] at h; subst h
      simp [eq_any, eq_any_refl (.row r r) rfl]
  | .expressionKind (.Selection s) _, h => by
      simp only [EqDiag] at h; subst h
      simp [eq_any, eq_any_refl (.selectQ s s) rfl]
  | .expressionKind (.Function f) _, h => by
      simp only [EqDiag] at h; subst h
      simp [eq_any, eq_any_refl (.function f f) rfl]
  | .expressionKind (.Asterisk t) _, h => by
      simp only [EqDiag] at h; subst h
      simp [eq_any, eq_any_refl (.optTable t t) rfl]
  | .expressionKind (.Op o) _, h => by
      simp only [EqDiag] at h; subst h
      simp [eq_any, eq_any_refl (.sqlOp o o) rfl]
  | .expressionKind (.ConditionTree t) _, h => by
      simp only [EqDiag] at h; subst h
      simp [eq_any, eq_any_refl (.conditionTree t t) rfl]
  | .expressionKind (.Compare c) _, h => by
      simp only [EqDiag] at h; subst h
      simp [eq_any, eq_any_refl (.compare c c) rfl]
  | .expressionKind (.Value e) _, h => by
      simp only [EqDiag] at h; subst h
      simp [eq_any, eq_any_refl (.expression e e) rfl]
  | .expressionKind (.Values v) _, h => by
      simp only [EqDiag] at h; subst h
      simp [eq_any, eq_any_refl (.values v v) rfl]
  | .expressionKind .Default _, h => by
      simp only [EqDiag] at h; subst h; simp [eq_any]
  | .column (.mk n t al) _, h => by
      simp only [EqDiag] at h; subst h
      simp [eq_any, eq_any_refl (.optTable t t) rfl]
  | .table (.mk ty al db) _, h => by
      simp only [EqDiag] at h; subst h
      simp [eq_any, eq_any_refl (.tableType ty ty) rfl]
  | .tableType (.Table n) _, h => by
      simp only [EqDiag] at h; subst h; simp [eq_any]
  | .tableType (.JoinedTable n js) _, h => by
      simp only [EqDiag] at h; subst h
      simp [eq_any, eq_any_refl (.joinList js js) rfl]
  | .tableType (.Query s) _, h => by
      simp only [EqDiag] at h; subst h
      simp [eq_any, eq_any_refl (.selectQ s s) rfl]
  | .tableType (.Values v) _, h => by
      simp only [EqDiag] at h; subst h
      simp [eq_any, eq_any_refl (.values v v) rfl]
  | .row (.mk vs) _, h => by
      simp only [EqDiag] at h; subst h
      simp [eq_any, eq_any_refl (.exprList vs vs) rfl]
  | .values (.mk rs) _, h => by
      simp only [EqDiag] at h; subst h
      simp [eq_any, eq_any_refl (.rowList rs rs) rfl]
  | .conditionTree (.And es) _, h => by
      simp only [EqDiag] at h; subst h
      simp [eq_any, eq_any_refl (.exprList es es) rfl]
  | .conditionTree (.Or es) _, h => by
      simp only [EqDiag] at h; subst h
      simp [eq_any, eq_any_refl (.exprList es es) rfl]
  | .conditionTree (.Not e) _, h => by
      simp only [EqDiag] at h; subst h
      simp [eq_any, eq_any_refl (.expression e e) rfl]
  | .conditionTree (.Single e) _, h => by
      simp only [EqDiag] at h; subst h
      simp [eq_any, eq_any_refl (.expression e e) rfl]
  | .conditionTree .NoCondition _, h => by
      simp only [EqDiag] at h; subst h; simp [eq_any]
  | .conditionTree .NegativeCondition _, h => by
      simp only [EqDiag] at h; subst h; simp [eq_any]
  | .conditionTree (.Exists t) _, h => by
      simp only [EqDiag] at h; subst h
      simp [eq_any, eq_any_refl (.table t t) rfl]
  | .compare (.Equals l r) _, h => by
      simp only [EqDiag] at h; subst h
      simp [eq_any, eq_any_refl (.expression l l) rfl,
        eq_any_refl (.expression r r) rfl]
  | .compare (.NotEquals l r) _, h => by
      simp only [EqDiag] at h; subst h
      simp [eq_any, eq_any_refl (.expression l l) rfl,
        eq_any_refl (.expression r r) rfl]
  | .compare (.LessThan l r) _, h => by
      simp only [EqDiag] at h; subst h
      simp [eq_any, eq_any_refl (.expression l l) rfl,
        eq_any_refl (.expression r r) rfl]
  | .compare (.LessThanOrEquals l r) _, h => by
      simp only [EqDiag] at h; subst h
      simp [eq_any, eq_any_refl (.expression l l) rfl,
        eq_any_refl (.expression r r) rfl]
  | .compare (.GreaterThan l r) _, h => by
      simp only [EqDiag] at h; subst h
      simp [eq_any, eq_any_refl (.expression l l) rfl,
        eq_any_refl (.expression r r) rfl]
  | .compare (.GreaterThanOrEquals l r) _, h => by
      simp only [EqDiag] at h; subst h
      simp [eq_any, eq_any_refl (.expression l l) rfl,
        eq_any_refl (.expression r r) rfl]
  | .compare (.In l r) _, h => by
      simp only [EqDiag] at h; subst h
      simp [eq_any, eq_any_refl (.expression l l) rfl,
        eq_any_refl (.expression r r) rfl]
  | .compare (.NotIn l r) _, h => by
      simp only [EqDiag] at h; subst h
      simp [eq_any, eq_any_refl (.expression l l) rfl,
        eq_any_refl (.expression r r) rfl]
  | .compare (.Like l r) _, h => by
      simp only [EqDiag] at h; subst h
      simp [eq_any, eq_any_refl (.expression l l) rfl,
        eq_any_refl (.expression r r) rfl]
  | .compare (.NotLike l r) _, h => by
      simp only [EqDiag] at h; subst h
      simp [eq_any, eq_any_refl (.expression l l) rfl,
        eq_any_refl (.expression r r) rfl]
  | .compare (.Null e) _, h => by
      simp only [EqDiag] at h; subst h
      simp [eq_any, eq_any_refl (.expression e e) rfl]
  | .compare (.NotNull e) _, h => by
      simp only [EqDiag] at h; subst h
      simp [eq_any, eq_any_refl (.expression e e) rfl]
  | .compare (.Between v l r) _, h => by
      simp only [EqDiag] at h; subst h
      simp [eq_any, eq_any_refl (.expression v v) rfl,
        eq_any_refl (.expression l l) rfl, eq_any_refl (.expression r r) rfl]
  | .compare (.NotBetween v l r) _, h => by
      simp only [EqDiag] at h; subst h
      simp [eq_any, eq_any_refl (.expression v v) rfl,
        eq_any_refl (.expression l l) rfl, eq_any_refl (.expression r r) rfl]
  | .compare (.Raw l c r) _, h => by
      simp only [EqDiag] at h; subst h
      simp [eq_any, eq_any_refl (.expression l l) rfl,
        eq_any_refl (.expression r r) rfl]
  | .compare (.JsonCompare j) _, h => by
      simp only [EqDiag] at h; subst h
      simp [eq_any, eq_any_refl (.jsonCompare j j) rfl]
  | .compare (.Any e) _, h => by
      simp only [EqDiag] at h; subst h
      simp [eq_any, eq_any_refl (.expression e e) rfl]
  | .compare (.All e) _, h => by
      simp only [EqDiag] at h; subst h
      simp [eq_any, eq_any_refl (.expression e e) rfl]
  | .jsonCompare (.ArrayOverlaps l r) _, h => by
      simp only [EqDiag] at h; subst h
      simp [eq_any, eq_any_refl (.expression l l) rfl,
        eq_any_refl (.expression r r) rfl]
  | .jsonCompare (.ArrayContains l r) _, h => by
      simp only [EqDiag] at h; subst h
      simp [eq_any, eq_any_refl (.expression l l) rfl,
        eq_any_refl (.expression r r) rfl]
  | .jsonCompare (.ArrayContained l r) _, h => by
      simp only [EqDiag] at h; subst h
      simp [eq_any, eq_any_refl (.expression l l) rfl,
        eq_any_refl (.expression r r) rfl]
  | .jsonCompare (.ArrayNotContains l r) _, h => by
      simp only [EqDiag] at h; subst h
      simp [eq_any, eq_any_refl (.expression l l) rfl,
        eq_any_refl (.expression r r) rfl]
  | .jsonCompare (.TypeEquals l t) _, h => by
      simp only [EqDiag] at h; subst h
      simp [eq_any, eq_any_refl (.expression l l) rfl,
        eq_any_refl (.jsonType t t) rfl]
  | .jsonCompare (.TypeNotEquals l t) _, h => by
      simp only [EqDiag] at h; subst h
      simp [eq_any, eq_any_refl (.expression l l) rfl,
        eq_any_refl (.jsonType t t) rfl]
  | .jsonType .Array _, h => by
      simp only [EqDiag] at h; subst h; simp [eq_any]
  | .jsonType .Object _, h => by
      simp only [EqDiag] at h; subst h; simp [eq_any]
  | .jsonType .String _, h => by
      simp only [EqDiag] at h; subst h; simp [eq_any]
  | .jsonType .Number _, h => by
      simp only [EqDiag] at h; subst h; simp [eq_any]
  | .jsonType .Boolean _, h => by
      simp only [EqDiag] at h; subst h; simp [eq_any]
  | .jsonType .Null _, h => by
      simp only [EqDiag] at h; subst h; simp [eq_any]
  | .jsonType (.ColumnRef c) _, h => by
      simp only [EqDiag] at h; subst h
      simp [eq_any, eq_any_refl (.column c c) rfl]
  | .function (.mk t al) _, h => by
      simp only [EqDiag] at h; subst h
      simp [eq_any, eq_any_refl (.functionType t t) rfl]
  | .functionType (.Count es) _, h => by
      simp only [EqDiag] at h; subst h
      simp [eq_any, eq_any_refl (.exprList es es) rfl]
  | .functionType (.AggregateToString v) _, h => by
      simp only [EqDiag] at h; subst h
      simp [eq_any, eq_any_refl (.expression v v) rfl]
  | .functionType (.Average c) _, h => by
      simp only [EqDiag] at h; subst h
      simp [eq_any, eq_any_refl (.column c c) rfl]
  | .functionType (.Sum e) _, h => by
      simp only [EqDiag] at h; subst h
      simp [eq_any, eq_any_refl (.expression e e) rfl]
  | .functionType (.Lower e) _, h => by
      simp only [EqDiag] at h; subst h
      simp [eq_any, eq_any_refl (.expression e e) rfl]
  | .functionType (.Upper e) _, h => by
      simp only [EqDiag] at h; subst h
      simp [eq_any, eq_any_refl (.expression e e) rfl]
  | .functionType (.Minimum c) _, h => by
      simp only [EqDiag] at h; subst h
      simp [eq_any, eq_any_refl (.column c c) rfl]
  | .functionType (.Maximum c) _, h => by
      simp only [EqDiag] at h; subst h
      simp [eq_any, eq_any_refl (.column c c) rfl]
  | .functionType (.Coalesce es) _, h => by
      simp only [EqDiag] at h; subst h
      simp [eq_any, eq_any_refl (.exprList es es) rfl]
  | .functionType (.Concat es) _, h => by
      simp only [EqDiag] at h; subst h
      simp [eq_any, eq_any_refl (.exprList es es) rfl]
  | .functionType (.JsonExtract c p s) _, h => by
      simp only [EqDiag] at h; subst h
      simp [eq_any, eq_any_refl (.expression c c) rfl]
  | .functionType (.JsonExtractLastArrayElem e) _, h => by
      simp only [EqDiag] at h; subst h
      simp [eq_any, eq_any_refl (.expression e e) rfl]
  | .functionType (.JsonExtractFirstArrayElem e) _, h => by
      simp only [EqDiag] at h; subst h
      simp [eq_any, eq_any_refl (.expression e e) rfl]
  | .functionType (.JsonUnquote e) _, h => by
      simp only [EqDiag] at h; subst h
      simp [eq_any, eq_any_refl (.expression e e) rfl]
  | .functionType (.RowToJson t s) _, h => by
      simp only [EqDiag] at h; subst h
      simp [eq_any, eq_any_refl (.table t t) rfl]
  | .functionType (.ToJsonb t) _, h => by
      simp only [EqDiag] at h; subst h
      simp [eq_any, eq_any_refl (.table t t) rfl]
  | .functionType (.JsonAgg e d o) _, h => by
      simp only [EqDiag] at h; subst h
      simp [eq_any, eq_any_refl (.expression e e) rfl,
        eq_any_refl (.optOrdering o o) rfl]
  | .functionType (.Encode e f) _, h => by
      simp only [EqDiag] at h; subst h
      simp [eq_any, eq_any_refl (.expression e e) rfl]
  | .functionType (.JsonBuildObject kvs) _, h => by
      simp only [EqDiag] at h; subst h
      simp [eq_any, eq_any_refl (.kvPairList kvs kvs) rfl]
  | .ordering (.mk ps) _, h => by
      simp only [EqDiag] at h; subst h
      simp [eq_any, eq_any_refl (.orderPairList ps ps) rfl]
  | .grouping (.mk es) _, h => by
      simp only [EqDiag] at h; subst h
      simp [eq_any, eq_any_refl (.exprList es es) rfl]
  | .sqlOp (.Add l r) _, h => by
      simp only [EqDiag] at h; subst h
      simp [eq_any, eq_any_refl (.expression l l) rfl,
        eq_any_refl (.expression r r) rfl]
  | .sqlOp (.Sub l r) _, h => by
      simp only [EqDiag] at h; subst h
      simp [eq_any, eq_any_refl (.expression l l) rfl,
        eq_any_refl (.expression r r) rfl]
  | .sqlOp (.Mul l r) _, h => by
      simp only [EqDiag] at h; subst h
      simp [eq_any, eq_any_refl (.expression l l) rfl,
        eq_any_refl (.expression r r) rfl]
  | .sqlOp (.Div l r) _, h => by
      simp only [EqDiag] at h; subst h
      simp [eq_any, eq_any_refl (.expression l l) rfl,
        eq_any_refl (.expression r r) rfl]
  | .sqlOp (.Rem l r) _, h => by
      simp only [EqDiag] at h; subst h
      simp [eq_any, eq_any_refl (.expression l l) rfl,
        eq_any_refl (.expression r r) rfl]
  | .sqlOp (.Append l r) _, h => by
      simp only [EqDiag] at h; subst h
      simp [eq_any, eq_any_refl (.expression l l) rfl,
        eq_any_refl (.expression r r) rfl]
  | .sqlOp (.JsonDeleteAtPath l r) _, h => by
      simp only [EqDiag] at h; subst h
      simp [eq_any, eq_any_refl (.expression l l) rfl,
        eq_any_refl (.expression r r) rfl]
  | .join (.Inner d) _, h => by
      simp only [EqDiag] at h; subst h
      simp [eq_any, eq_any_refl (.joinData d d) rfl]
  | .join (.Left d) _, h => by
      simp only [EqDiag] at h; subst h
      simp [eq_any, eq_any_refl (.joinData d d) rfl]
  | .join (.Right d) _, h => by
      simp only [EqDiag] at h; subst h
      simp [eq_any, eq_any_refl (.joinData d d) rfl]
  | .join (.Full d) _, h => by
      simp only [EqDiag] at h; subst h
      simp [eq_any, eq_any_refl (.joinData d d) rfl]
  | .joinData (.mk t c l) _, h => by
      simp only [EqDiag] at h; subst h
      simp [eq_any, eq_any_refl (.table t t) rfl,
        eq_any_refl (.conditionTree c c) rfl]
  | .selectQ (.mk ctes d tbls cols conds ord grp hav lim off js cm) _, h => by
      simp only [EqDiag] at h; subst h
      simp [eq_any, eq_any_refl (.cteList ctes ctes) rfl,
        eq_any_refl (.tableList tbls tbls) rfl,
        eq_any_refl (.exprList cols cols) rfl,
        eq_any_refl (.optConditionTree conds conds) rfl,
        eq_any_refl (.ordering ord ord) rfl,
        eq_any_refl (.grouping grp grp) rfl,
        eq_any_refl (.optConditionTree hav hav) rfl,
        eq_any_refl (.joinList js js) rfl]
  | .cte (.mk n q) _, h => by
      simp only [EqDiag] at h; subst h
      simp [eq_any, eq_any_refl (.query q q) rfl]
  | .query (.Select s) _, h => by
      simp only [EqDiag] at h; subst h
      simp [eq_any, eq_any_refl (.selectQ s s) rfl]
  | .query (.Insert i) _, h => by
      simp only [EqDiag] at h; subst h
      simp [eq_any, eq_any_refl (.insert i i) rfl]
  | .query (.Update u) _, h => by
      simp only [EqDiag] at h; subst h
      simp [eq_any, eq_any_refl (.update u u) rfl]
  | .query (.Delete d) _, h => by
      simp only [EqDiag] at h; subst h
      simp [eq_any, eq_any_refl (.delete d d) rfl]
  | .insert (.mk t cs vs oc r cm) _, h => by
      simp only [EqDiag] at h; subst h
      simp [eq_any, eq_any_refl (.optTable t t) rfl,
        eq_any_refl (.columnList cs cs) rfl,
        eq_any_refl (.expression vs vs) rfl,
        eq_any_refl (.optOnConflict oc oc) rfl,
        eq_any_refl (.optColumnList r r) rfl]
  | .onConflict .DoNothing _, h => by
      simp only [EqDiag] at h; subst h; simp [eq_any]
  | .onConflict (.Update u cs) _, h => by
      simp only [EqDiag] at h; subst h
      simp [eq_any, eq_any_refl (.update u u) rfl,
        eq_any_refl (.columnList cs cs) rfl]
  | .update (.mk t cs vs conds r) _, h => by
      simp only [EqDiag] at h; subst h
      simp [eq_any, eq_any_refl (.table t t) rfl,
        eq_any_refl (.columnList cs cs) rfl,
        eq_any_refl (.exprList vs vs) rfl,
        eq_any_refl (.optConditionTree conds conds) rfl,
        eq_any_refl (.optColumnList r r) rfl]
  | .delete (.mk t conds) _, h => by
      simp only [EqDiag] at h; subst h
      simp [eq_any, eq_any_refl (.table t t) rfl,
        eq_any_refl (.optConditionTree conds conds) rfl]
  | .optTable none _, h => by
      simp only [EqDiag] at h; subst h; simp [eq_any]
  | .optTable (some t) _, h => by
      simp only [EqDiag] at h; subst h
      simp [eq_any, eq_any_refl (.table t t) rfl]
  | .optConditionTree none _, h => by
      simp only [EqDiag] at h; subst h; simp [eq_any]
  | .optConditionTree (some c) _, h => by
      simp only [EqDiag] at h; subst h
      simp [eq_any, eq_any_refl (.conditionTree c c) rfl]
  | .optOrdering none _, h => by
      simp only [EqDiag] at h; subst h; simp [eq_any]
  | .optOrdering (some o) _, h => by
      simp only [EqDiag] at h; subst h
      simp [eq_any, eq_any_refl (.ordering o o) rfl]
  | .optOnConflict none _, h => by
      simp only [EqDiag] at h; subst h; simp [eq_any]
  | .optOnConflict (some o) _, h => by
      simp only [EqDiag] at h; subst h
      simp [eq_any, eq_any_refl (.onConflict o o) rfl]
  | .optColumnList none _, h => by
      simp only [EqDiag] at h; subst h; simp [eq_any]
  | .optColumnList (some cs) _, h => by
      simp only [EqDiag] at h; subst h
      simp [eq_any, eq_any_refl (.columnList cs cs) rfl]
  | .exprList [] _, h => by
      simp only [EqDiag] at h; subst h; simp [eq_any]
  | .exprList (e :: es) _, h => by
      simp only [EqDiag] at h; subst h
      simp [eq_any, eq_any_refl (.expression e e) rfl,
        eq_any_refl (.exprList es es) rfl]
  | .rowList [] _, h => by
      simp only [EqDiag] at h; subst h; simp [eq_any]
  | .rowList (r :: rs) _, h => by
      simp only [EqDiag] at h; subst h
      simp [eq_any, eq_any_refl (.row r r) rfl, eq_any_refl (.rowList rs rs) rfl]
  | .tableList [] _, h => by
      simp only [EqDiag] at h; subst h; simp [eq_any]
  | .tableList (t :: ts) _, h => by
      simp only [EqDiag] at h; subst h
      simp [eq_any, eq_any_refl (.table t t) rfl,
        eq_any_refl (.tableList ts ts) rfl]
  | .columnList [] _, h => by
      simp only [EqDiag] at h; subst h; simp [eq_any]
  | .columnList (c :: cs) _, h => by
      simp only [EqDiag] at h; subst h
      simp [eq_any, eq_any_refl (.column c c) rfl,
        eq_any_refl (.columnList cs cs) rfl]
  | .joinList [] _, h => by
      simp only [EqDiag] at h; subst h; simp [eq_any]
  | .joinList (j :: js) _, h => by
      simp only [EqDiag] at h; subst h
      simp [eq_any, eq_any_refl (.join j j) rfl, eq_any_refl (.joinList js js) rfl]
  | .cteList [] _, h => by
      simp only [EqDiag] at h; subst h; simp [eq_any]
  | .cteList (c :: cs) _, h => by
      simp only [EqDiag] at h; subst h
      simp [eq_any, eq_any_refl (.cte c c) rfl, eq_any_refl (.cteList cs cs) rfl]
  | .orderPairList [] _, h => by
      simp only [EqDiag] at h; subst h; simp [eq_any]
  | .orderPairList (.mk e d :: ps) _, h => by
      simp only [EqDiag] at h; subst h
      simp [eq_any, eq_any_refl (.expression e e) rfl,
        eq_any_refl (.orderPairList ps ps) rfl]
  | .kvPairList [] _, h => by
      simp only [EqDiag] at h; subst h; simp [eq_any]
  | .kvPairList (.mk k v :: ps) _, h => by
      simp only [EqDiag] at h; subst h
      simp [eq_any, eq_any_refl (.expression v v) rfl,
        eq_any_refl (.kvPairList ps ps) rfl]
termination_by x _ => sizeOf x

-- Sanity checks against the unit tests of `renderer/postgres.rs`.
example :
    build (.Select ((Select.from_table (Table.from_string "users")).limit 10
      |>.offset 2)) =
    ("SELECT \"users\".* FROM \"users\" LIMIT $1 OFFSET $2",
      [.num 10, .num 2]) := by
  simp
  rfl

example :
    build (.Select (Select.from_table (Table.from_string "users"))) =
    ("SELECT \"users\".* FROM \"users\"", []) := by simp

/-- Claim C1, counterexample: a single-column literal row compared `IN` a
single-row literal value set renders as `"a" IN ($1)` - it keeps the `IN`
keyword and contains no `=` operator, contradicting the claim that the
flattened form is rendered with `=`. -/
theorem in_singleton_flatten_counterexample :
    renderChunks (apply ⟨[], []⟩ (visit_compare (.In
        (.mk (.Row (.mk [.mk (.Column (.mk "a" none none)) none])) none)
        (.mk (.Values (.mk [.mk [.mk (.Parameterized (.num 1)) none]])) none)))).query
      = "\"a\" IN ($1)"
    ∧ (" IN ".toList <:+: "\"a\" IN ($1)".toList)
    ∧ ¬ ('=' ∈ "\"a\" IN ($1)".toList) := by
  refine ⟨?_, by decide, by decide⟩
  simp
  rfl

/-- Claim C1 (amended): for a single-column literal row against a
single-row literal value set, the renderer flattens the right side - the
single row is rendered directly, with no value-set nesting - but the
comparison is still rendered with the `IN`/`NOT IN` keyword; the `=`/`<>`
rewrite is applied only when the right side is a single scalar
parameterized value. -/
theorem in_singleton_flatten_keeps_in_keyword :
    (∀ (col : Expression) (la : Option String) (vrow : Row) (ra : Option String),
        visit_compare (.In (.mk (.Row (.mk [col])) la)
            (.mk (.Values (.mk [vrow])) ra))
          = visit_expression col ++ [.text " IN "] ++ visit_row vrow)
    ∧ (∀ (col : Expression) (la : Option String) (vrow : Row) (ra : Option String),
        visit_compare (.NotIn (.mk (.Row (.mk [col])) la)
            (.mk (.Values (.mk [vrow])) ra))
          = visit_expression col ++ [.text " NOT IN "] ++ visit_row vrow)
    ∧ (∀ (l : Expression) (pv : JVal) (pa : Option String),
        visit_compare (.In l (.mk (.Parameterized pv) pa))
          = visit_expression l ++ [.text " = ", .par pv])
    ∧ (∀ (l : Expression) (pv : JVal) (pa : Option String),
        visit_compare (.NotIn l (.mk (.Parameterized pv) pa))
          = visit_expression l ++ [.text " <> ", .par pv]) := by
  refine ⟨?_, ?_, ?_, ?_⟩
  · intro col la vrow ra; simp
  · intro col la vrow ra; simp
  · intro l pv pa; cases l with | mk k a => cases k <;> simp
  · intro l pv pa; cases l with | mk k a => cases k <;> simp

/-- Claim C2, counterexample: an `IN` comparison whose left side is a
plain column (not a literal row) and whose right side is a zero-row
literal value set renders as `"a" IN ()` (and `"a" NOT IN ()` for
`NOT IN`) - the collapse to `1=0`/`1=1` does not happen for arbitrary
left-side expressions. -/
theorem in_zero_row_value_set_counterexample :
    renderChunks (apply ⟨[], []⟩ (visit_compare (.In
        (.mk (.Column (.mk "a" none none)) none)
        (.mk (.Values (.mk [])) none)))).query = "\"a\" IN ()"
    ∧ renderChunks (apply ⟨[], []⟩ (visit_compare (.NotIn
        (.mk (.Column (.mk "a" none none)) none)
        (.mk (.Values (.mk [])) none)))).query = "\"a\" NOT IN ()"
    ∧ ¬ ("1=0".toList <:+: "\"a\" IN ()".toList)
    ∧ ¬ ("1=1".toList <:+: "\"a\" NOT IN ()".toList) := by
  refine ⟨?_, ?_, by decide, by decide⟩ <;> (simp; try rfl)

/-- Claim C2 (amended): when the left side is a literal row (of any
contents) and the right side is a literal value set with zero rows, the
`IN` comparison collapses to `1=0` and the `NOT IN` comparison to `1=1`;
the zero-row collapse requires the left side to be a literal row. -/
theorem in_zero_row_value_set_collapse :
    (∀ (cols : List Expression) (la ra : Option String),
        visit_compare (.In (.mk (.Row (.mk cols)) la)
            (.mk (.Values (.mk [])) ra)) = [.text "1=0"])
    ∧ (∀ (cols : List Expression) (la ra : Option String),
        visit_compare (.NotIn (.mk (.Row (.mk cols)) la)
            (.mk (.Values (.mk [])) ra)) = [.text "1=1"]) := by
  constructor <;> (intro cols la ra; simp)

/-- Claim C3 (confirmed): for any left-side expression, an `IN`
comparison against an empty literal row emits exactly the text `1=0` (no
`IN` keyword, the left side is not rendered), and the corresponding
`NOT IN` comparison emits exactly `1=1`; `in_selection` with an empty row
is precisely such a comparison. -/
theorem in_empty_row_collapse (l : Expression) (ra : Option String) :
    visit_compare (in_selection l (.mk (.Row (.mk [])) ra)) = [.text "1=0"]
    ∧ visit_compare (not_in_selection l (.mk (.Row (.mk [])) ra))
        = [.text "1=1"] := by
  constructor <;> (cases l with | mk k a => cases k <;> simp)

/-- Claim C4 (confirmed): for every query, the placeholders emitted by
the PostgreSQL renderer are numbered `1, 2, ..., parameters.len()` in
order of emission - so their count equals the length of the returned
parameter list and placeholder `n` corresponds to parameter index
`n - 1`, monotonically increasing. -/
theorem build_placeholder_parameter_parity (q : Query) :
    phNums (apply ⟨[], []⟩ (visit_query q)).query
        = List.range' 1 (build q).2.length
    ∧ (phNums (apply ⟨[], []⟩ (visit_query q)).query).length
        = (build q).2.length := by
  have h0 : PlaceholderInv (⟨[], []⟩ : RState) := by
    simp [PlaceholderInv, phNums]
  have h : phNums (apply ⟨[], []⟩ (visit_query q)).query
      = List.range' 1 (apply ⟨[], []⟩ (visit_query q)).parameters.length :=
    apply_inv (visit_query q) ⟨[], []⟩ h0
  constructor
  · simpa [build] using h
  · rw [h]
    simp [build]

/-- Claim C5 (confirmed): `ConditionTree::and` appends to an existing
`And` list and `ConditionTree::or` appends to an existing `Or` list; a
`Single` contributes its inner expression to a fresh 2-element list, and
every other shape is wrapped into a fresh 2-element list - so
`a.and(b).and(c)` is one flat 3-element `And`, rendered as a single
parenthesized group. -/
theorem condition_tree_and_or_flattening :
    (∀ (es : List Expression) (e : Expression),
        (ConditionTree.And es).and e = .And (es ++ [e]))
    ∧ (∀ (x e : Expression), (ConditionTree.Single x).and e = .And [x, e])
    ∧ (∀ (es : List Expression) (e : Expression),
        (ConditionTree.Or es).and e
          = .And [.mk (.ConditionTree (.Or es)) none, e])
    ∧ (∀ (x e : Expression),
        (ConditionTree.Not x).and e
          = .And [.mk (.ConditionTree (.Not x)) none, e])
    ∧ (∀ e : Expression,
        ConditionTree.NoCondition.and e
          = .And [.mk (.ConditionTree .NoCondition) none, e])
    ∧ (∀ e : Expression,
        ConditionTree.NegativeCondition.and e
          = .And [.mk (.ConditionTree .NegativeCondition) none, e])
    ∧ (∀ (t : Table) (e : Expression),
        (ConditionTree.Exists t).and e
          = .And [.mk (.ConditionTree (.Exists t)) none, e])
    ∧ (∀ (es : List Expression) (e : Expression),
        (ConditionTree.Or es).or e = .Or (es ++ [e]))
    ∧ (∀ (x e : Expression), (ConditionTree.Single x).or e = .Or [x, e])
    ∧ (∀ (es : List Expression) (e : Expression),
        (ConditionTree.And es).or e
          = .Or [.mk (.ConditionTree (.And es)) none, e])
    ∧ (∀ (x e : Expression),
        (ConditionTree.Not x).or e
          = .Or [.mk (.ConditionTree (.Not x)) none, e])
    ∧ (∀ e : Expression,
        ConditionTree.NoCondition.or e
          = .Or [.mk (.ConditionTree .NoCondition) none, e])
    ∧ (∀ e : Expression,
        ConditionTree.NegativeCondition.or e
          = .Or [.mk (.ConditionTree .NegativeCondition) none, e])
    ∧ (∀ (t : Table) (e : Expression),
        (ConditionTree.Exists t).or e
          = .Or [.mk (.ConditionTree (.Exists t)) none, e])
    ∧ (∀ a b c : Expression, (conjunctive_and a b).and c = .And [a, b, c])
    ∧ (∀ a b c : Expression,
        visit_conditions (.And [a, b, c])
          = [.text "("] ++ visit_expression a ++ [.text " AND "]
              ++ visit_expression b ++ [.text " AND "]
              ++ visit_expression c ++ [.text ")"]) := by
  refine ⟨?_, ?_, ?_, ?_, ?_, ?_, ?_, ?_, ?_, ?_, ?_, ?_, ?_, ?_, ?_, ?_⟩
    <;> intros <;> simp

/-- Claim C6 (confirmed): attaching any of the four join kinds to a table
whose type is `Query` or `Values` panics (modelled as `none`), while
attaching to a plain `Table` produces a `JoinedTable` with that single
join and attaching to a `JoinedTable` appends to its join list. -/
theorem table_join_attachment :
    (∀ (sel : Select) (al db : Option String) (j : JoinData),
        (Table.mk (.Query sel) al db).left_join j = none)
    ∧ (∀ (v : Values) (al db : Option String) (j : JoinData),
        (Table.mk (.Values v) al db).left_join j = none)
    ∧ (∀ (name : String) (al db : Option String) (j : JoinData),
        (Table.mk (.Table name) al db).left_join j
          = some (.mk (.JoinedTable name [.Left j]) al db))
    ∧ (∀ (name : String) (js : List Join) (al db : Option String) (j : JoinData),
        (Table.mk (.JoinedTable name js) al db).left_join j
          = some (.mk (.JoinedTable name (js ++ [.Left j])) al db))
    ∧ (∀ (sel : Select) (al db : Option String) (j : JoinData),
        (Table.mk (.Query sel) al db).inner_join j = none)
    ∧ (∀ (v : Values) (al db : Option String) (j : JoinData),
        (Table.mk (.Values v) al db).inner_join j = none)
    ∧ (∀ (name : String) (al db : Option String) (j : JoinData),
        (Table.mk (.Table name) al db).inner_join j
          = some (.mk (.JoinedTable name [.Inner j]) al db))
    ∧ (∀ (name : String) (js : List Join) (al db : Option String) (j : JoinData),
        (Table.mk (.JoinedTable name js) al db).inner_join j
          = some (.mk (.JoinedTable name (js ++ [.Inner j])) al db))
    ∧ (∀ (sel : Select) (al db : Option String) (j : JoinData),
        (Table.mk (.Query sel) al db).right_join j = none)
    ∧ (∀ (v : Values) (al db : Option String) (j : JoinData),
        (Table.mk (.Values v) al db).right_join j = none)
    ∧ (∀ (name : String) (al db : Option String) (j : JoinData),
        (Table.mk (.Table name) al db).right_join j
          = some (.mk (.JoinedTable name [.Right j]) al db))
    ∧ (∀ (name : String) (js : List Join) (al db : Option String) (j : JoinData),
        (Table.mk (.JoinedTable name js) al db).right_join j
          = some (.mk (.JoinedTable name (js ++ [.Right j])) al db))
    ∧ (∀ (sel : Select) (al db : Option String) (j : JoinData),
        (Table.mk (.Query sel) al db).full_join j = none)
    ∧ (∀ (v : Values) (al db : Option String) (j : JoinData),
        (Table.mk (.Values v) al db).full_join j = none)
    ∧ (∀ (name : String) (al db : Option String) (j : JoinData),
        (Table.mk (.Table name) al db).full_join j
          = some (.mk (.JoinedTable name [.Full j]) al db))
    ∧ (∀ (name : String) (js : List Join) (al db : Option String) (j : JoinData),
        (Table.mk (.JoinedTable name js) al db).full_join j
          = some (.mk (.JoinedTable name (js ++ [.Full j])) al db)) := by
  refine ⟨?_, ?_, ?_, ?_, ?_, ?_, ?_, ?_, ?_, ?_, ?_, ?_, ?_, ?_, ?_, ?_⟩
    <;> intros <;> rfl

/-- Claim C7, counterexample: for a `LIKE` whose left side is a column
carrying an alias, the `::text` cast is emitted after the alias, so the
rendered text is `"jsonField" AS "x"::text LIKE $1` and does not contain
the quoted column name immediately followed by `::text`. -/
theorem like_column_text_cast_counterexample :
    renderChunks (apply ⟨[], []⟩ (visit_compare (.Like
        (.mk (.Column (.mk "jsonField" none (some "x"))) none)
        (.mk (.Parameterized (.str "%foo%")) none)))).query
      = "\"jsonField\" AS \"x\"::text LIKE $1"
    ∧ ¬ ("\"jsonField\"::text".toList
          <:+: "\"jsonField\" AS \"x\"::text LIKE $1".toList) := by
  refine ⟨?_, by decide⟩
  simp
  rfl

/-- Claim C7 (amended): in the PostgreSQL renderer, a `LIKE`/`NOT LIKE`
whose left expression is of `Column` kind renders the left expression
followed immediately by `::text` and then ` LIKE `/` NOT LIKE ` - for an
unaliased column this is the quoted column name immediately followed by
`::text`; for a left expression of any other kind no `::text` cast is
emitted. -/
theorem like_column_text_cast :
    (∀ (c : Column) (la : Option String) (r : Expression),
        visit_compare (.Like (.mk (.Column c) la) r)
          = visit_expression (.mk (.Column c) la)
              ++ [.text "::text", .text " LIKE "] ++ visit_expression r)
    ∧ (∀ (c : Column) (la : Option String) (r : Expression),
        visit_compare (.NotLike (.mk (.Column c) la) r)
          = visit_expression (.mk (.Column c) la)
              ++ [.text "::text", .text " NOT LIKE "] ++ visit_expression r)
    ∧ (∀ (name : String) (r : Expression),
        visit_compare (.Like (.mk (.Column (.mk name none none)) none) r)
          = [.text "\"", .text name, .text "\"", .text "::text",
              .text " LIKE "] ++ visit_expression r)
    ∧ (∀ (l r : Expression), is_column_kind l = false →
        visit_compare (.Like l r)
          = visit_expression l ++ [.text " LIKE "] ++ visit_expression r)
    ∧ (∀ (l r : Expression), is_column_kind l = false →
        visit_compare (.NotLike l r)
          = visit_expression l ++ [.text " NOT LIKE "]
              ++ visit_expression r) := by
  refine ⟨?_, ?_, ?_, ?_, ?_⟩
  · intro c la r; simp
  · intro c la r; simp
  · intro name r; simp
  · intro l r h; cases l with | mk k a => cases k <;> simp_all
  · intro l r h; cases l with | mk k a => cases k <;> simp_all

/-- Witness for claim C7's theorem: the no-cast case applied to a
parameterized (non-column) left expression. -/
theorem like_column_text_cast_witness :
    is_column_kind (.mk (.Parameterized (.str "%f%")) none) = false
    ∧ visit_compare (.Like (.mk (.Parameterized (.str "%f%")) none)
          (.mk (.Raw "p") none))
        = visit_expression (.mk (.Parameterized (.str "%f%")) none)
            ++ [.text " LIKE "] ++ visit_expression (.mk (.Raw "p") none) :=
  ⟨by simp,
    like_column_text_cast.2.2.2.1 (.mk (.Parameterized (.str "%f%")) none)
      (.mk (.Raw "p") none) (by simp)⟩

/-- Claim C8 (confirmed): the PostgreSQL renderer parameterizes `LIMIT`
and `OFFSET`: both set emits ` LIMIT $n OFFSET $n+1` with the limit value
preceding the offset value, only offset emits ` OFFSET $n`, only limit
emits ` LIMIT $n`, neither emits nothing; end to end,
`Select::from_table("users").limit(10).offset(2)` builds
`SELECT "users".* FROM "users" LIMIT $1 OFFSET $2` with parameters
`[10, 2]`. -/
theorem limit_offset_parameterized :
    (∀ l o : Nat, visit_limit_and_offset (some l) (some o)
        = [.text " LIMIT ", .par (.num l), .text " OFFSET ", .par (.num o)])
    ∧ (∀ o : Nat, visit_limit_and_offset none (some o)
        = [.text " OFFSET ", .par (.num o)])
    ∧ (∀ l : Nat, visit_limit_and_offset (some l) none
        = [.text " LIMIT ", .par (.num l)])
    ∧ visit_limit_and_offset none none = []
    ∧ build (.Select ((Select.from_table (Table.from_string "users")).limit 10
          |>.offset 2))
        = ("SELECT \"users\".* FROM \"users\" LIMIT $1 OFFSET $2",
            [.num 10, .num 2]) := by
  refine ⟨fun l o => rfl, fun o => rfl, fun l => rfl, rfl, ?_⟩
  simp
  rfl

/-- Claim C9 (confirmed): `Column` equality compares only the name and
the owning table - changing either alias never changes the result - and
`Table` equality ignores the table's alias, so two references to the same
column that differ only in their aliases (their own or their table's)
compare equal. -/
theorem column_equality_ignores_alias :
    (∀ (n n' : String) (t t' : Option Table) (a a' b b' : Option String),
        eq_column (.mk n t a) (.mk n' t' b) = eq_column (.mk n t a') (.mk n' t' b'))
    ∧ (∀ (ty ty' : TableType) (db db' : Option String)
          (al al' bl bl' : Option String),
        eq_table (.mk ty al db) (.mk ty' bl db')
          = eq_table (.mk ty al' db) (.mk ty' bl' db'))
    ∧ (∀ (n : String) (ty : TableType) (db : Option String)
          (al al' ca ca' : Option String),
        eq_column (.mk n (some (.mk ty al db)) ca)
            (.mk n (some (.mk ty al' db)) ca') = true)
    ∧ (∀ (n : String) (a a' : Option String),
        eq_column (.mk n none a) (.mk n none a') = true) := by
  refine ⟨?_, ?_, ?_, ?_⟩
  · intros; simp [eq_column, eq_any]
  · intros; simp [eq_table, eq_any]
  · intro n ty db al al' ca ca'
    simp [eq_column, eq_any, eq_any_refl (.tableType ty ty) rfl]
  · intros; simp [eq_column, eq_any]

/-- Claim C10 (confirmed): a `SELECT` with no source tables renders only
its CTE prefix, `SELECT `, the optional `DISTINCT `, and the projection
(` *` when the column list is empty, otherwise the columns); its
conditions, grouping, having, ordering, limit, offset and joins are not
rendered and contribute nothing to the output. -/
theorem select_without_tables_renders_only_projection :
    (∀ (ctes : List CommonTableExpression) (d : Bool)
        (cols : List Expression) (conds : Option ConditionTree)
        (ord : Ordering) (grp : Grouping) (hav : Option ConditionTree)
        (lim off : Option Nat) (js : List Join) (cm : Option String),
        visit_select (.mk ctes d [] cols conds ord grp hav lim off js cm)
          = visit_select (.mk ctes d [] cols none (.mk []) (.mk []) none
              none none [] cm))
    ∧ (∀ d : Bool,
        visit_select (.mk [] d [] [] none (.mk []) (.mk []) none none none [] none)
          = [.text "SELECT "] ++ (if d then [.text "DISTINCT "] else [])
              ++ [.text " *"])
    ∧ (∀ (e : Expression) (d : Bool),
        visit_select (.mk [] d [] [e] none (.mk []) (.mk []) none none none [] none)
          = [.text "SELECT "] ++ (if d then [.text "DISTINCT "] else [])
              ++ visit_expression e) := by
  refine ⟨?_, ?_, ?_⟩
  · intros; simp
  · intro d; cases d <;> simp
  · intro e d; cases d <;> simp

end SqlAst
